import Mathlib

/-!
Shallow embedding of the merge engine of server.py (jwlibrarycopie) and
verification of its specification claims.

Tables are lists of row structures; SQLite connections are modeled by
threading table state through each merger.  Python dicts keyed by
(db_path, old_id) tuples become association lists with Python dict update
semantics (dset): an existing key is overwritten in place, a new key is
appended at the end.  SQL three-valued comparisons on nullable columns are
modeled by sqlEq (plain =, where NULL compares equal to nothing) and
sqlIs (the IS operator, where NULL matches NULL).  Fresh GUIDs produced by
uuid.uuid4() are modeled by a stream parameter (an index function
Nat -> String) together with a counter threaded through the merge.
-/

namespace JWLC

/-- Python dict lookup: the first binding for the key (keys stay unique
because dset overwrites in place). -/
def dget {κ ν : Type} [BEq κ] (m : List (κ × ν)) (k : κ) : Option ν :=
  (m.find? (fun p => p.1 == k)).map (fun p => p.2)

/-- Python dict assignment m[k] = v: overwrite the binding in place if the
key is present, otherwise append the new binding. -/
def dset {κ ν : Type} [BEq κ] (m : List (κ × ν)) (k : κ) (v : ν) : List (κ × ν) :=
  if m.any (fun p => p.1 == k) then
    m.map (fun p => if p.1 == k then (k, v) else p)
  else
    m ++ [(k, v)]

/-- SQL plain equality on nullable values: NULL compares equal to nothing,
so the comparison only succeeds on two equal non-NULL values. -/
def sqlEq {α : Type} [DecidableEq α] : Option α → Option α → Bool
  | some x, some y => decide (x = y)
  | _, _ => false

/-- SQL IS comparison on nullable values: NULL IS NULL holds. -/
def sqlIs {α : Type} [DecidableEq α] (a b : Option α) : Bool := decide (a = b)

/-- One row of a transient MergeMapping table; (SourceDb, OldID) is the
primary key. -/
structure MMEntry where
  sourceDb : String
  oldId : Nat
  newId : Nat
deriving Repr, DecidableEq

/-- SELECT NewID FROM MergeMapping WHERE SourceDb = ? AND OldID = ?. -/
def mmLookup (t : List MMEntry) (src : String) (old : Nat) : Option Nat :=
  (t.find? (fun e => e.sourceDb == src && e.oldId == old)).map (fun e => e.newId)

/-- SQL INSERT OR IGNORE into a MergeMapping table. -/
def mmInsertOrIgnore (t : List MMEntry) (src : String) (old newId : Nat) : List MMEntry :=
  if (mmLookup t src old).isSome then t else t ++ [⟨src, old, newId⟩]

/-- SQL INSERT OR REPLACE into a MergeMapping table. -/
def mmInsertOrReplace (t : List MMEntry) (src : String) (old newId : Nat) : List MMEntry :=
  (t.filter (fun e => !(e.sourceDb == src && e.oldId == old))) ++ [⟨src, old, newId⟩]

/-- Plain SQL INSERT into a MergeMapping table (the call sites only insert
keys they have just found absent). -/
def mmInsert (t : List MMEntry) (src : String) (old newId : Nat) : List MMEntry :=
  t ++ [⟨src, old, newId⟩]

/- ===================== List and dict lemmas ============================== -/

theorem find?_append_of_some {α : Type} {p : α → Bool} {l1 l2 : List α} {x : α}
    (h : l1.find? p = some x) : (l1 ++ l2).find? p = some x := by
  induction l1 with
  | nil => simp [List.find?] at h
  | cons a t ih =>
      by_cases hpa : p a
      · simpa [List.find?_cons_of_pos _ hpa] using
          (by simpa [List.find?_cons_of_pos _ hpa] using h)
      · have h2 : t.find? p = some x := by
          simpa [List.find?_cons_of_neg _ hpa] using h
        simpa [List.find?_cons_of_neg _ hpa] using ih h2

theorem find?_append_of_none {α : Type} {p : α → Bool} {l1 : List α} (l2 : List α)
    (h : l1.find? p = none) : (l1 ++ l2).find? p = l2.find? p := by
  induction l1 with
  | nil => simp
  | cons a t ih =>
      by_cases hpa : p a
      · rw [List.find?_cons_of_pos _ hpa] at h
        exact absurd h (by simp)
      · rw [List.find?_cons_of_neg _ hpa] at h
        simpa [List.find?_cons_of_neg _ hpa] using ih h

theorem bool_eq_false {b : Bool} (h : ¬ b = true) : b = false := by
  rcases hb : b with _ | _
  · rfl
  · exact absurd hb h

theorem beq_false_symm {κ : Type} [BEq κ] [LawfulBEq κ] {a b : κ} (h : (a == b) = false) :
    (b == a) = false := by
  rcases hbe : b == a with _ | _
  · rfl
  · have hba : b = a := eq_of_beq hbe
    subst hba
    rw [beq_self_eq_true] at h
    exact absurd h (by simp)

theorem dget_map_replace_ne {κ ν : Type} [BEq κ] [LawfulBEq κ] {k k2 : κ} {v : ν}
    (h : (k2 == k) = false) :
    ∀ m : List (κ × ν),
      dget (m.map (fun p => if p.1 == k then (k, v) else p)) k2 = dget m k2 := by
  have hk2 : (k == k2) = false := beq_false_symm h
  intro m
  induction m with
  | nil => rfl
  | cons p t ih =>
      show dget ((if p.1 == k then (k, v) else p) :: t.map _) k2 = dget (p :: t) k2
      unfold dget at ih ⊢
      by_cases hp : (p.1 == k) = true
      · have hp2 : (p.1 == k2) = false := by rw [eq_of_beq hp]; exact hk2
        rw [if_pos hp]
        simp only [List.find?_cons, hk2, hp2]
        exact ih
      · rw [if_neg hp]
        by_cases hq : (p.1 == k2) = true
        · simp only [List.find?_cons, hq]
        · simp only [List.find?_cons, bool_eq_false hq]
          exact ih

theorem dget_map_replace_self {κ ν : Type} [BEq κ] [LawfulBEq κ] (k : κ) (v : ν) :
    ∀ m : List (κ × ν), m.any (fun p => p.1 == k) = true →
      dget (m.map (fun p => if p.1 == k then (k, v) else p)) k = some v := by
  intro m
  induction m with
  | nil => intro h; simp at h
  | cons p t ih =>
      intro h
      show dget ((if p.1 == k then (k, v) else p) :: t.map _) k = some v
      unfold dget
      by_cases hp : (p.1 == k) = true
      · rw [if_pos hp]
        simp only [List.find?_cons, beq_self_eq_true]
        rfl
      · rw [if_neg hp]
        have ht : t.any (fun p => p.1 == k) = true := by
          rw [List.any_cons, bool_eq_false hp] at h
          simpa using h
        simp only [List.find?_cons, bool_eq_false hp]
        have h2 := ih ht
        unfold dget at h2
        exact h2

theorem dget_dset_self {κ ν : Type} [BEq κ] [LawfulBEq κ] (m : List (κ × ν)) (k : κ) (v : ν) :
    dget (dset m k v) k = some v := by
  unfold dset
  split
  · rename_i hany
    exact dget_map_replace_self k v m hany
  · rename_i hany
    have hnone : m.find? (fun p => p.1 == k) = none := by
      rw [List.find?_eq_none]
      intro x hx hbx
      exact hany (List.any_eq_true.mpr ⟨x, hx, hbx⟩)
    unfold dget
    rw [find?_append_of_none _ hnone]
    simp [List.find?]

theorem dget_dset_ne {κ ν : Type} [BEq κ] [LawfulBEq κ] (m : List (κ × ν)) (k k2 : κ) (v : ν)
    (h : (k2 == k) = false) : dget (dset m k v) k2 = dget m k2 := by
  unfold dset
  split
  · exact dget_map_replace_ne h m
  · unfold dget
    rcases hf : m.find? (fun p => p.1 == k2) with _ | w
    · rw [find?_append_of_none _ hf, hf]
      have hk2 : (k == k2) = false := beq_false_symm h
      simp [List.find?_cons, hk2]
    · rw [find?_append_of_some hf, hf]

/-- Any binding dset leaves readable either was there before or is the
binding just written. -/
theorem dget_dset_cases {κ ν : Type} [BEq κ] [LawfulBEq κ] (m : List (κ × ν)) (k k2 : κ)
    (v w : ν) (h : dget (dset m k v) k2 = some w) :
    dget m k2 = some w ∨ k2 = k := by
  by_cases hk : (k2 == k) = true
  · exact Or.inr (eq_of_beq hk)
  · have hk2 : (k2 == k) = false := by
      rcases hbe : k2 == k with _ | _
      · rfl
      · exact absurd hbe hk
    rw [dget_dset_ne m k k2 v hk2] at h
    exact Or.inl h

/- ===================== Location (merge_location_from_sources) ============ -/

/-- Descriptive columns of a Location row. -/
structure LocationData where
  bookNumber : Option Int
  chapterNumber : Option Int
  documentId : Option Int
  track : Option Int
  issueTagNumber : Option Int
  keySymbol : Option String
  mepsLanguage : Option Int
  locType : Option Int
  title : Option String
deriving Repr, DecidableEq

/-- A row of the merged Location table. -/
structure LocationRow where
  locationId : Nat
  data : LocationData
deriving Repr, DecidableEq

/-- A Location row read from one source database, tagged with the source
db path (the key the mapping dicts use) and its old LocationId. -/
structure SrcLocationRow where
  srcDb : String
  oldId : Nat
  data : LocationData
deriving Repr, DecidableEq

/-- WHERE clause of the duplicate lookup in merge_location_from_sources:
the IS operator (NULL-aware) on seven columns, but plain = on
IssueTagNumber and Type. -/
def locationContentMatches (r q : LocationData) : Bool :=
  sqlIs r.bookNumber q.bookNumber &&
  sqlIs r.chapterNumber q.chapterNumber &&
  sqlIs r.documentId q.documentId &&
  sqlIs r.track q.track &&
  sqlEq r.issueTagNumber q.issueTagNumber &&
  sqlIs r.keySymbol q.keySymbol &&
  sqlIs r.mepsLanguage q.mepsLanguage &&
  sqlEq r.locType q.locType &&
  sqlIs r.title q.title

/-- State of the merged database seen by the Location merger: the Location
table, the transient MergeMapping_Location table, and the running
max LocationId used to allocate fresh ids. -/
structure LocMergeState where
  table : List LocationRow
  mapTable : List MMEntry
  maxId : Nat
deriving Repr, DecidableEq

/-- Key of the returned mapping dict: (source db path, old id). -/
abbrev SrcKey := String × Nat

/-- The (source, oldId) to newId dict a merger returns. -/
abbrev IdMap := List (SrcKey × Nat)

/-- Body of the per-row loop of merge_location_from_sources: resolve via
MergeMapping_Location first, then via a content match, else insert with
id max+1; record the mapping in the dict and (INSERT OR IGNORE) in the
mapping table. -/
def locStep (p : LocMergeState × IdMap) (row : SrcLocationRow) : LocMergeState × IdMap :=
  let st := p.1
  let acc := p.2
  match mmLookup st.mapTable row.srcDb row.oldId with
  | some newId => (st, dset acc (row.srcDb, row.oldId) newId)
  | none =>
    match st.table.find? (fun r => locationContentMatches r.data row.data) with
    | some r =>
        ({ st with mapTable := mmInsertOrIgnore st.mapTable row.srcDb row.oldId r.locationId },
         dset acc (row.srcDb, row.oldId) r.locationId)
    | none =>
        let newId := st.maxId + 1
        ({ table := st.table ++ [⟨newId, row.data⟩],
           mapTable := mmInsertOrIgnore st.mapTable row.srcDb row.oldId newId,
           maxId := newId },
         dset acc (row.srcDb, row.oldId) newId)

/-- merge_location_from_sources: fold locStep over the concatenated row
lists of the two sources, starting from the current merged Location table
and MergeMapping_Location table, with maxId initialised to
COALESCE(MAX(LocationId), 0). -/
def mergeLocations (table : List LocationRow) (mapTable : List MMEntry)
    (rows : List SrcLocationRow) : LocMergeState × IdMap :=
  rows.foldl locStep
    ({ table := table, mapTable := mapTable,
       maxId := (table.map (fun r => r.locationId)).foldl max 0 }, [])

/- ===================== Helper lemmas ===================================== -/

theorem mmLookup_append_of_some {t : List MMEntry} {src : String} {old v : Nat}
    (e : MMEntry) (h : mmLookup t src old = some v) :
    mmLookup (t ++ [e]) src old = some v := by
  unfold mmLookup at h ⊢
  rcases ho : t.find? (fun e2 => e2.sourceDb == src && e2.oldId == old) with _ | w
  · simp [ho] at h
  · rw [find?_append_of_some ho]
    simpa [ho] using h

theorem mmLookup_insertOrIgnore_mono {t : List MMEntry} {src s2 : String}
    {old o2 v n2 : Nat} (h : mmLookup t src old = some v) :
    mmLookup (mmInsertOrIgnore t s2 o2 n2) src old = some v := by
  unfold mmInsertOrIgnore
  split
  · exact h
  · exact mmLookup_append_of_some _ h

theorem mmLookup_insertOrIgnore_self {t : List MMEntry} {src : String} {old n : Nat}
    (h : mmLookup t src old = none) :
    mmLookup (mmInsertOrIgnore t src old n) src old = some n := by
  unfold mmInsertOrIgnore
  rw [h]
  simp only [Option.isSome_none, Bool.false_eq_true, if_false]
  unfold mmLookup at h ⊢
  rcases ho : t.find? (fun e => e.sourceDb == src && e.oldId == old) with _ | w
  · rw [find?_append_of_none _ ho]
    simp [List.find?]
  · simp [ho] at h

/-- Every branch of locStep leaves the (source, oldId) key resolvable in
the mapping table and records the same value in the returned dict. -/
theorem locStep_lookup (p : LocMergeState × IdMap) (row : SrcLocationRow) :
    ∃ v, mmLookup (locStep p row).1.mapTable row.srcDb row.oldId = some v ∧
      (locStep p row).2 = dset p.2 (row.srcDb, row.oldId) v := by
  rcases hm : mmLookup p.1.mapTable row.srcDb row.oldId with _ | v
  · rcases hf : p.1.table.find? (fun r => locationContentMatches r.data row.data) with _ | r
    · refine ⟨p.1.maxId + 1, ?_, ?_⟩
      · simp only [locStep, hm, hf]
        exact mmLookup_insertOrIgnore_self hm
      · simp only [locStep, hm, hf]
    · refine ⟨r.locationId, ?_, ?_⟩
      · simp only [locStep, hm, hf]
        exact mmLookup_insertOrIgnore_self hm
      · simp only [locStep, hm, hf]
  · refine ⟨v, ?_, ?_⟩
    · simp only [locStep, hm]
    · simp only [locStep, hm]

/-- When the mapping table already resolves the row, locStep leaves the
state untouched and only records the resolved value in the dict. -/
theorem locStep_hit (st : LocMergeState) (acc : IdMap) (row : SrcLocationRow) (v : Nat)
    (h : mmLookup st.mapTable row.srcDb row.oldId = some v) :
    locStep (st, acc) row = (st, dset acc (row.srcDb, row.oldId) v) := by
  simp only [locStep, h]

/-- locStep never loses a resolvable mapping-table key. -/
theorem locStep_mono {src : String} {old v : Nat} (p : LocMergeState × IdMap)
    (row : SrcLocationRow) (h : mmLookup p.1.mapTable src old = some v) :
    mmLookup (locStep p row).1.mapTable src old = some v := by
  rcases hm : mmLookup p.1.mapTable row.srcDb row.oldId with _ | w
  · rcases hf : p.1.table.find? (fun r => locationContentMatches r.data row.data) with _ | r
    · simp only [locStep, hm, hf]
      exact mmLookup_insertOrIgnore_mono h
    · simp only [locStep, hm, hf]
      exact mmLookup_insertOrIgnore_mono h
  · simp only [locStep, hm]
    exact h

/-- A fold of locStep never loses a resolvable mapping-table key. -/
theorem locFold_mono {src : String} {old v : Nat} (rows : List SrcLocationRow)
    (p : LocMergeState × IdMap) (h : mmLookup p.1.mapTable src old = some v) :
    mmLookup (rows.foldl locStep p).1.mapTable src old = some v := by
  induction rows generalizing p with
  | nil => exact h
  | cons r t ih => exact ih _ (locStep_mono p r h)

/-- Replaying the Location merge loop against its own output changes
nothing: the state (up to the recomputed max id) is untouched and the
dict is rebuilt identically. -/
theorem locFold_replay (rows : List SrcLocationRow) (p : LocMergeState × IdMap) :
    ∀ max2 : Nat,
      rows.foldl locStep
        (⟨(rows.foldl locStep p).1.table, (rows.foldl locStep p).1.mapTable, max2⟩, p.2) =
      (⟨(rows.foldl locStep p).1.table, (rows.foldl locStep p).1.mapTable, max2⟩,
        (rows.foldl locStep p).2) := by
  induction rows generalizing p with
  | nil => intro max2; rfl
  | cons r t ih =>
      intro max2
      obtain ⟨v, hv, hacc⟩ := locStep_lookup p r
      rw [List.foldl_cons, List.foldl_cons]
      have hv1 : mmLookup (t.foldl locStep (locStep p r)).1.mapTable r.srcDb r.oldId = some v :=
        locFold_mono t (locStep p r) hv
      have hstep :=
        locStep_hit ⟨(t.foldl locStep (locStep p r)).1.table,
          (t.foldl locStep (locStep p r)).1.mapTable, max2⟩ p.2 r v hv1
      rw [hstep, ← hacc]
      exact ih (locStep p r) max2

/- ===================== Claim C2 ========================================== -/

/-- C2: running the Location merger a second time with the same source rows
against the merged database it already populated returns the same
(source, oldId) to newId mapping as the first run and inserts no
additional Location rows; every row resolves through the transient
MergeMapping_Location table before an insert is attempted. -/
theorem location_merge_idempotent (table : List LocationRow) (mapTable : List MMEntry)
    (rows : List SrcLocationRow) :
    (mergeLocations (mergeLocations table mapTable rows).1.table
        (mergeLocations table mapTable rows).1.mapTable rows).2 =
      (mergeLocations table mapTable rows).2 ∧
    (mergeLocations (mergeLocations table mapTable rows).1.table
        (mergeLocations table mapTable rows).1.mapTable rows).1.table =
      (mergeLocations table mapTable rows).1.table ∧
    (mergeLocations (mergeLocations table mapTable rows).1.table
        (mergeLocations table mapTable rows).1.mapTable rows).1.mapTable =
      (mergeLocations table mapTable rows).1.mapTable := by
  have h := locFold_replay rows
    ({ table := table, mapTable := mapTable,
       maxId := (table.map (fun r => r.locationId)).foldl max 0 }, ([] : IdMap))
    (((mergeLocations table mapTable rows).1.table.map (fun r => r.locationId)).foldl max 0)
  have h2 := congrArg Prod.snd h
  have ht := congrArg (fun x : LocMergeState × IdMap => x.1.table) h
  have hmt := congrArg (fun x : LocMergeState × IdMap => x.1.mapTable) h
  exact ⟨h2, ht, hmt⟩

/- ===================== Claim C7 ========================================== -/

theorem sqlIs_iff {α : Type} [DecidableEq α] (a b : Option α) : sqlIs a b = true ↔ a = b := by
  simp [sqlIs]

theorem sqlEq_iff {α : Type} [DecidableEq α] (a b : Option α) :
    sqlEq a b = true ↔ ∃ x, a = some x ∧ b = some x := by
  cases a with
  | none => simp [sqlEq]
  | some x =>
      cases b with
      | none => simp [sqlEq]
      | some y =>
          simp only [sqlEq, decide_eq_true_eq, Option.some.injEq]
          constructor
          · intro h
            exact ⟨x, rfl, h.symm⟩
          · rintro ⟨z, hx, hy⟩
            exact hx.trans hy.symm

/-- Location payload with a NULL IssueTagNumber, used to refute the
claim that the Location duplicate lookup is NULL-aware on every
descriptive column. -/
def c7data : LocationData :=
  { bookNumber := some 1, chapterNumber := some 2, documentId := none, track := none,
    issueTagNumber := none, keySymbol := some "nwt", mepsLanguage := some 0,
    locType := some 0, title := some "t" }

/-- C7 is false as stated: a source Location row tuple-identical
(NULL-aware) to an existing merged row, but with a NULL IssueTagNumber,
does not reuse the existing id 7; the merger inserts a second row with
id max+1 = 8, because the lookup uses plain = (never true on NULL) for
IssueTagNumber and Type. -/
theorem location_dedup_counterexample :
    (mergeLocations [⟨7, c7data⟩] [] [⟨"a", 3, c7data⟩]).1.table.length = 2 ∧
    dget (mergeLocations [⟨7, c7data⟩] [] [⟨"a", 3, c7data⟩]).2 ("a", 3) = some 8 := by
  decide

/-- C7 amended: the duplicate lookup of the Location merger is NULL-aware
(IS) on BookNumber, ChapterNumber, DocumentId, Track, KeySymbol,
MepsLanguage and Title, but uses plain SQL equality on IssueTagNumber and
Type, which both sides must therefore hold non-NULL and equal; when the
mapping table does not resolve the row, a content match reuses the found
id with no insert, and otherwise a new row with id max+1 is inserted. -/
theorem location_dedup_amended (st : LocMergeState) (acc : IdMap) (row : SrcLocationRow)
    (r q : LocationData) :
    (locationContentMatches r q = true ↔
      (r.bookNumber = q.bookNumber ∧ r.chapterNumber = q.chapterNumber ∧
       r.documentId = q.documentId ∧ r.track = q.track ∧
       r.keySymbol = q.keySymbol ∧ r.mepsLanguage = q.mepsLanguage ∧ r.title = q.title ∧
       (∃ i, r.issueTagNumber = some i ∧ q.issueTagNumber = some i) ∧
       (∃ ty, r.locType = some ty ∧ q.locType = some ty))) ∧
    (mmLookup st.mapTable row.srcDb row.oldId = none →
      (∀ t2, st.table.find? (fun r2 => locationContentMatches r2.data row.data) = some t2 →
        (locStep (st, acc) row).1.table = st.table ∧
        (locStep (st, acc) row).2 = dset acc (row.srcDb, row.oldId) t2.locationId) ∧
      (st.table.find? (fun r2 => locationContentMatches r2.data row.data) = none →
        (locStep (st, acc) row).1.table = st.table ++ [⟨st.maxId + 1, row.data⟩] ∧
        (locStep (st, acc) row).2 = dset acc (row.srcDb, row.oldId) (st.maxId + 1))) := by
  constructor
  · rw [locationContentMatches]
    simp only [Bool.and_eq_true, sqlIs_iff, sqlEq_iff]
    tauto
  · intro hm
    constructor
    · intro t2 hf
      constructor <;> simp only [locStep, hm, hf]
    · intro hf
      constructor <;> simp only [locStep, hm, hf]

/-- Witness for location_dedup_amended at a concrete input. -/
theorem location_dedup_amended_witness :
    (locStep (⟨[], [], 0⟩, []) ⟨"a", 3, c7data⟩).1.table = [⟨1, c7data⟩] ∧
    (locStep (⟨[], [], 0⟩, []) ⟨"a", 3, c7data⟩).2 = [(("a", 3), 1)] :=
  ((location_dedup_amended ⟨[], [], 0⟩ [] ⟨"a", 3, c7data⟩ c7data c7data).2
    (by decide)).2 (by decide)

/- ===================== UserMark (merge_usermark_from_sources) ============ -/

/-- A row of the merged UserMark table. -/
structure UserMarkRow where
  userMarkId : Nat
  colorIndex : Option Int
  locationId : Option Nat
  styleIndex : Option Int
  guid : Option String
  version : Option Int
deriving Repr, DecidableEq

/-- A UserMark row read from one source database. -/
structure SrcUserMarkRow where
  oldId : Nat
  colorIndex : Option Int
  locationId : Option Nat
  styleIndex : Option Int
  guid : Option String
  version : Option Int
deriving Repr, DecidableEq

/-- State threaded through merge_usermark_from_sources: merged UserMark
table, MergeMapping_UserMark, the running max UserMarkId, the uuid4
stream index, and the two halves of the returned mapping dict (one
Python dict mixing (source, oldId) tuple keys with GUID keys). -/
structure UMMergeState where
  table : List UserMarkRow
  mapTable : List MMEntry
  maxId : Nat
  freshIdx : Nat
  pairMap : IdMap
  guidMap : List (Option String × Nat)
deriving Repr, DecidableEq

/-- Python new_loc = location_id_map.get((db_path, loc_id), loc_id) if
loc_id is not None else None. -/
def remapLoc (locMap : IdMap) (src : String) (loc : Option Nat) : Option Nat :=
  match loc with
  | none => none
  | some l => some ((dget locMap (src, l)).getD l)

/-- Mapping bookkeeping shared by every non-shortcut branch of the
UserMark loop: record the new id under the (source, oldId) key and under
the row's original GUID key, and INSERT OR REPLACE into
MergeMapping_UserMark. -/
def umFinish (st : UMMergeState) (src : String) (row : SrcUserMarkRow) (nid : Nat) :
    UMMergeState :=
  { st with pairMap := dset st.pairMap (src, row.oldId) nid,
            guidMap := dset st.guidMap row.guid nid,
            mapTable := mmInsertOrReplace st.mapTable src row.oldId nid }

/-- Body of the per-row loop of merge_usermark_from_sources. -/
def umStep (fresh : Nat → String) (locMap : IdMap) (src : String)
    (st : UMMergeState) (row : SrcUserMarkRow) : UMMergeState :=
  match mmLookup st.mapTable src row.oldId with
  | some nid =>
      { st with pairMap := dset st.pairMap (src, row.oldId) nid,
                guidMap := dset st.guidMap row.guid nid }
  | none =>
      let newLoc := remapLoc locMap src row.locationId
      match st.table.find? (fun r => sqlEq r.guid row.guid) with
      | some ex =>
          if (row.colorIndex, newLoc, row.styleIndex, row.version) =
             (ex.colorIndex, ex.locationId, ex.styleIndex, ex.version) then
            umFinish st src row ex.userMarkId
          else
            umFinish { st with
                table := st.table ++
                  [⟨st.maxId + 1, row.colorIndex, newLoc, row.styleIndex,
                    some (fresh st.freshIdx), row.version⟩],
                maxId := st.maxId + 1,
                freshIdx := st.freshIdx + 1 } src row (st.maxId + 1)
      | none =>
          umFinish { st with
              table := st.table ++
                [⟨st.maxId + 1, row.colorIndex, newLoc, row.styleIndex,
                  row.guid, row.version⟩],
              maxId := st.maxId + 1 } src row (st.maxId + 1)

/-- merge_usermark_from_sources: one pass over the rows of each source in
turn, sharing the running max id, the mapping dict and the uuid4 stream. -/
def mergeUserMarks (table : List UserMarkRow) (mapTable : List MMEntry) (locMap : IdMap)
    (src1 : String) (rows1 : List SrcUserMarkRow)
    (src2 : String) (rows2 : List SrcUserMarkRow) (fresh : Nat → String) : UMMergeState :=
  let st0 : UMMergeState :=
    { table := table, mapTable := mapTable,
      maxId := (table.map (fun r => r.userMarkId)).foldl max 0,
      freshIdx := 0, pairMap := [], guidMap := [] }
  rows2.foldl (umStep fresh locMap src2) (rows1.foldl (umStep fresh locMap src1) st0)

/- ===================== Claim C1 ========================================== -/

/-- C1 is false as stated: with a merged UserMark row guid "g" already
present with a differing payload, the incoming source row is inserted as
a new row with fresh id 2 and fresh guid "f0", but the returned mapping
records the new id under the ORIGINAL guid key "g"; there is no entry
under the new guid key "f0". -/
theorem usermark_conflict_counterexample :
    (mergeUserMarks [⟨1, some 10, some 5, some 0, some "g", some 1⟩] [] []
        "a" [⟨4, some 11, some 5, some 0, some "g", some 1⟩] "b" []
        (fun _ => "f0")).table =
      [⟨1, some 10, some 5, some 0, some "g", some 1⟩,
       ⟨2, some 11, some 5, some 0, some "f0", some 1⟩] ∧
    dget (mergeUserMarks [⟨1, some 10, some 5, some 0, some "g", some 1⟩] [] []
        "a" [⟨4, some 11, some 5, some 0, some "g", some 1⟩] "b" []
        (fun _ => "f0")).guidMap (some "f0") = none ∧
    dget (mergeUserMarks [⟨1, some 10, some 5, some 0, some "g", some 1⟩] [] []
        "a" [⟨4, some 11, some 5, some 0, some "g", some 1⟩] "b" []
        (fun _ => "f0")).guidMap (some "g") = some 2 := by
  decide

/-- When the row resolves neither through the mapping table nor through a
GUID match, umStep inserts it with id max+1 keeping its own GUID. -/
theorem umStep_new (fresh : Nat → String) (locMap : IdMap) (src : String)
    (st : UMMergeState) (row : SrcUserMarkRow)
    (h1 : mmLookup st.mapTable src row.oldId = none)
    (h2 : st.table.find? (fun r => sqlEq r.guid row.guid) = none) :
    umStep fresh locMap src st row =
      umFinish { st with
          table := st.table ++
            [⟨st.maxId + 1, row.colorIndex, remapLoc locMap src row.locationId,
              row.styleIndex, row.guid, row.version⟩],
          maxId := st.maxId + 1 } src row (st.maxId + 1) := by
  simp only [umStep, h1, h2]

/-- When the GUID is already present with a differing payload, umStep
inserts a distinct new row with id max+1 and a fresh GUID. -/
theorem umStep_conflict (fresh : Nat → String) (locMap : IdMap) (src : String)
    (st : UMMergeState) (row : SrcUserMarkRow) (ex : UserMarkRow)
    (h1 : mmLookup st.mapTable src row.oldId = none)
    (h2 : st.table.find? (fun r => sqlEq r.guid row.guid) = some ex)
    (h3 : (row.colorIndex, remapLoc locMap src row.locationId, row.styleIndex, row.version) ≠
          (ex.colorIndex, ex.locationId, ex.styleIndex, ex.version)) :
    umStep fresh locMap src st row =
      umFinish { st with
          table := st.table ++
            [⟨st.maxId + 1, row.colorIndex, remapLoc locMap src row.locationId,
              row.styleIndex, some (fresh st.freshIdx), row.version⟩],
          maxId := st.maxId + 1,
          freshIdx := st.freshIdx + 1 } src row (st.maxId + 1) := by
  simp only [umStep, h1, h2, if_neg h3]

/-- C1 amended: two source UserMark rows sharing GUID g but with
differing remapped payloads yield two distinct merged rows with two
distinct GUIDs (the first keeps g, the divergent one gets a freshly
allocated id and a freshly generated GUID; the old GUID is not reused
for the divergent row), each mapped from its own (source, oldId) key;
the divergent new id is additionally recorded under the ORIGINAL GUID
key g, not under the new GUID key. -/
theorem usermark_conflict_amended (src1 src2 : String) (r1 r2 : SrcUserMarkRow)
    (g : String) (locMap : IdMap) (fresh : Nat → String)
    (hsrc : src1 ≠ src2) (hg1 : r1.guid = some g) (hg2 : r2.guid = some g)
    (hfresh : fresh 0 ≠ g)
    (hdiff : (r2.colorIndex, remapLoc locMap src2 r2.locationId, r2.styleIndex, r2.version) ≠
             (r1.colorIndex, remapLoc locMap src1 r1.locationId, r1.styleIndex, r1.version)) :
    (mergeUserMarks [] [] locMap src1 [r1] src2 [r2] fresh).table =
      [⟨1, r1.colorIndex, remapLoc locMap src1 r1.locationId, r1.styleIndex, some g, r1.version⟩,
       ⟨2, r2.colorIndex, remapLoc locMap src2 r2.locationId, r2.styleIndex,
         some (fresh 0), r2.version⟩] ∧
    (some (fresh 0) : Option String) ≠ some g ∧
    dget (mergeUserMarks [] [] locMap src1 [r1] src2 [r2] fresh).pairMap
      (src1, r1.oldId) = some 1 ∧
    dget (mergeUserMarks [] [] locMap src1 [r1] src2 [r2] fresh).pairMap
      (src2, r2.oldId) = some 2 ∧
    dget (mergeUserMarks [] [] locMap src1 [r1] src2 [r2] fresh).guidMap
      (some g) = some 2 := by
  have hb : (src1 == src2) = false := beq_eq_false_iff_ne.mpr hsrc
  have hmerge : mergeUserMarks [] [] locMap src1 [r1] src2 [r2] fresh =
      umStep fresh locMap src2
        (umStep fresh locMap src1 ⟨[], [], 0, 0, [], []⟩ r1) r2 := rfl
  have e1 := umStep_new fresh locMap src1 ⟨[], [], 0, 0, [], []⟩ r1 rfl rfl
  have e1b : umStep fresh locMap src1 ⟨[], [], 0, 0, [], []⟩ r1 =
      ⟨[⟨1, r1.colorIndex, remapLoc locMap src1 r1.locationId, r1.styleIndex,
          some g, r1.version⟩],
       [⟨src1, r1.oldId, 1⟩], 1, 0, [((src1, r1.oldId), 1)], [(some g, 1)]⟩ := by
    rw [e1, ← hg1]
    rfl
  have h1b : mmLookup [⟨src1, r1.oldId, 1⟩] src2 r2.oldId = none := by
    simp [mmLookup, List.find?, hb]
  have h2b : ([⟨1, r1.colorIndex, remapLoc locMap src1 r1.locationId, r1.styleIndex,
      some g, r1.version⟩] : List UserMarkRow).find?
        (fun r => sqlEq r.guid r2.guid) = some ⟨1, r1.colorIndex,
          remapLoc locMap src1 r1.locationId, r1.styleIndex, some g, r1.version⟩ := by
    rw [hg2]
    simp [List.find?, sqlEq]
  have e2 := umStep_conflict fresh locMap src2
    ⟨[⟨1, r1.colorIndex, remapLoc locMap src1 r1.locationId, r1.styleIndex,
        some g, r1.version⟩],
     [⟨src1, r1.oldId, 1⟩], 1, 0, [((src1, r1.oldId), 1)], [(some g, 1)]⟩ r2
    ⟨1, r1.colorIndex, remapLoc locMap src1 r1.locationId, r1.styleIndex,
      some g, r1.version⟩ h1b h2b hdiff
  have hfin : mergeUserMarks [] [] locMap src1 [r1] src2 [r2] fresh =
      umFinish ⟨[⟨1, r1.colorIndex, remapLoc locMap src1 r1.locationId, r1.styleIndex,
          some g, r1.version⟩,
        ⟨2, r2.colorIndex, remapLoc locMap src2 r2.locationId, r2.styleIndex,
          some (fresh 0), r2.version⟩],
       [⟨src1, r1.oldId, 1⟩], 2, 1, [((src1, r1.oldId), 1)], [(some g, 1)]⟩
        src2 r2 2 := by
    rw [hmerge, e1b, e2]
    rfl
  have hpair : (((src1, r1.oldId) : SrcKey) == (src2, r2.oldId)) = false := by
    rw [beq_eq_false_iff_ne]
    intro h
    exact hsrc (congrArg Prod.fst h)
  refine ⟨?_, ?_, ?_, ?_, ?_⟩
  · rw [hfin]
    rfl
  · intro h
    exact hfresh (Option.some.inj h)
  · rw [hfin]
    simp [umFinish, dget, dset, List.find?, List.any, hb, hpair, hg2]
  · rw [hfin]
    simp [umFinish, dget, dset, List.find?, List.any, hb, hpair, hg2]
  · rw [hfin]
    simp [umFinish, dget, dset, List.find?, List.any, hb, hpair, hg2]

/-- Witness for usermark_conflict_amended at a concrete input. -/
theorem usermark_conflict_amended_witness :
    (mergeUserMarks [] [] [] "a" [⟨4, some 11, some 5, some 0, some "g", some 1⟩]
        "b" [⟨9, some 12, some 5, some 0, some "g", some 1⟩] (fun _ => "f0")).table =
      [⟨1, some 11, remapLoc [] "a" (some 5), some 0, some "g", some 1⟩,
       ⟨2, some 12, remapLoc [] "b" (some 5), some 0, some "f0", some 1⟩] ∧
    (some "f0" : Option String) ≠ some "g" ∧
    dget (mergeUserMarks [] [] [] "a" [⟨4, some 11, some 5, some 0, some "g", some 1⟩]
        "b" [⟨9, some 12, some 5, some 0, some "g", some 1⟩] (fun _ => "f0")).pairMap
      ("a", (⟨4, some 11, some 5, some 0, some "g", some 1⟩ : SrcUserMarkRow).oldId) = some 1 ∧
    dget (mergeUserMarks [] [] [] "a" [⟨4, some 11, some 5, some 0, some "g", some 1⟩]
        "b" [⟨9, some 12, some 5, some 0, some "g", some 1⟩] (fun _ => "f0")).pairMap
      ("b", (⟨9, some 12, some 5, some 0, some "g", some 1⟩ : SrcUserMarkRow).oldId) = some 2 ∧
    dget (mergeUserMarks [] [] [] "a" [⟨4, some 11, some 5, some 0, some "g", some 1⟩]
        "b" [⟨9, some 12, some 5, some 0, some "g", some 1⟩] (fun _ => "f0")).guidMap
      (some "g") = some 2 :=
  usermark_conflict_amended "a" "b" ⟨4, some 11, some 5, some 0, some "g", some 1⟩
    ⟨9, some 12, some 5, some 0, some "g", some 1⟩ "g" [] (fun _ => "f0")
    (by decide) rfl rfl (by decide) (by decide)

/- ===================== Bookmark (merge_bookmarks) ======================== -/

/-- A Bookmark row as read from a source database
(BookmarkId, LocationId, PublicationLocationId, Slot, Title, Snippet,
BlockType, BlockIdentifier). -/
structure BookmarkRow where
  oldId : Nat
  locationId : Option Nat
  publicationLocationId : Option Nat
  slot : Int
  title : Option String
  snippet : Option String
  blockType : Option Int
  blockIdentifier : Option Int
deriving Repr, DecidableEq

/-- A row of the merged Bookmark table (the id is assigned by SQLite as
lastrowid, i.e. max existing rowid + 1 for an increasing table). -/
structure MergedBookmarkRow where
  bookmarkId : Nat
  locationId : Option Nat
  publicationLocationId : Option Nat
  slot : Int
  title : Option String
  snippet : Option String
  blockType : Option Int
  blockIdentifier : Option Int
deriving Repr, DecidableEq

/-- One entry of the bookmark_choices payload: the choice string, the two
optional source BookmarkIds, and the optional Title edits per source. -/
structure BookmarkChoice where
  choice : String
  id1 : Option Nat
  id2 : Option Nat
  editedTitle1 : Option String
  editedTitle2 : Option String
deriving Repr, DecidableEq

/-- WHERE clause of the content-duplicate lookup in merge_bookmarks:
plain = on LocationId, PublicationLocationId, Slot, Title and BlockType;
IFNULL-normalised comparisons for Snippet (default two empty strings) and
BlockIdentifier (default -1). -/
def bmContentMatches (r : MergedBookmarkRow) (locId pubId : Option Nat) (slot : Int)
    (title snippet : Option String) (btype bid : Option Int) : Bool :=
  sqlEq r.locationId locId && sqlEq r.publicationLocationId pubId &&
  decide (r.slot = slot) && sqlEq r.title title &&
  decide (r.snippet.getD "" = snippet.getD "") && sqlEq r.blockType btype &&
  decide (r.blockIdentifier.getD (-1) = bid.getD (-1))

/-- SELECT 1 FROM Bookmark WHERE PublicationLocationId = ? AND Slot = ?. -/
def bmOccupied (tbl : List MergedBookmarkRow) (pub : Option Nat) (s : Int) : Bool :=
  tbl.any (fun r => sqlEq r.publicationLocationId pub && decide (r.slot = s))

/-- Slot-collision probe of merge_bookmarks: starting from the original
slot, increment until (PublicationLocationId, Slot) is free.  The Python
loop is unbounded; it is run here with fuel, and fuel table-length + 1
always suffices (probeSlot_free below). -/
def probeSlot : Nat → List MergedBookmarkRow → Option Nat → Int → Int
  | 0, _, _, s => s
  | fuel + 1, tbl, pub, s =>
      if bmOccupied tbl pub s then probeSlot fuel tbl pub (s + 1) else s

/-- SELECT 1 FROM Location WHERE LocationId IN (?, ?) followed by the
len(fetchall()) == 2 test: the number of distinct merged Location rows
whose id equals either parameter (a NULL parameter matches nothing). -/
def locationIdsPresent (locIds : List Nat) (a b : Option Nat) : Bool :=
  decide ((locIds.filter (fun i => sqlEq (some i) a || sqlEq (some i) b)).length = 2)

/-- State threaded through merge_bookmarks. -/
structure BMMergeState where
  table : List MergedBookmarkRow
  mapTable : List MMEntry
  mapping : IdMap
deriving Repr, DecidableEq

/-- Processing of one resolved bookmark (Python lines after the edits are
applied): remap the two location references, skip unless both remapped
ids name distinct existing Location rows, then resolve through
MergeMapping_Bookmark, then through a content match, and otherwise insert
at the first free probed slot. -/
def bmProcess (locMap : IdMap) (locIds : List Nat) (src : String) (st : BMMergeState)
    (b : BookmarkRow) (title : Option String) : BMMergeState :=
  if locationIdsPresent locIds (remapLoc locMap src b.locationId)
      (remapLoc locMap src b.publicationLocationId) then
    match mmLookup st.mapTable src b.oldId with
    | some nid => { st with mapping := dset st.mapping (src, b.oldId) nid }
    | none =>
      match st.table.find? (fun r =>
          bmContentMatches r (remapLoc locMap src b.locationId)
            (remapLoc locMap src b.publicationLocationId) b.slot title b.snippet
            b.blockType b.blockIdentifier) with
      | some ex =>
          { st with mapping := dset st.mapping (src, b.oldId) ex.bookmarkId,
                    mapTable := mmInsertOrIgnore st.mapTable src b.oldId ex.bookmarkId }
      | none =>
          { table := st.table ++
              [⟨(st.table.map (fun r => r.bookmarkId)).foldl max 0 + 1,
                remapLoc locMap src b.locationId,
                remapLoc locMap src b.publicationLocationId,
                probeSlot (st.table.length + 1) st.table
                  (remapLoc locMap src b.publicationLocationId) b.slot,
                title, b.snippet, b.blockType, b.blockIdentifier⟩],
            mapTable := mmInsert st.mapTable src b.oldId
              ((st.table.map (fun r => r.bookmarkId)).foldl max 0 + 1),
            mapping := dset st.mapping (src, b.oldId)
              ((st.table.map (fun r => r.bookmarkId)).foldl max 0 + 1) }
  else st

/-- Resolution of a choice entry into the single bookmark to process
(choices file1 and file2 pick from that source; the choice both prefers
the file1 row and falls back to the file2 row; anything else resolves to
nothing).  The Bool marks a file1 origin. -/
def findBookmark (bms : List BookmarkRow) (o : Option Nat) : Option BookmarkRow :=
  match o with
  | some i => bms.find? (fun b => b.oldId == i)
  | none => none

def bmResolve (bms1 bms2 : List BookmarkRow) (c : BookmarkChoice) :
    Option (BookmarkRow × Bool) :=
  if c.choice == "file1" then
    (findBookmark bms1 c.id1).map (fun b => (b, true))
  else if c.choice == "file2" then
    (findBookmark bms2 c.id2).map (fun b => (b, false))
  else if c.choice == "both" then
    match findBookmark bms1 c.id1 with
    | some b => some (b, true)
    | none =>
        match findBookmark bms2 c.id2 with
        | some b => some (b, false)
        | none => none
  else none

/-- Body of the per-choice loop of merge_bookmarks: skip on ignore, skip
unresolved entries, apply the Title edit of the winning source, process. -/
def bmStep (locMap : IdMap) (locIds : List Nat) (src1 src2 : String)
    (bms1 bms2 : List BookmarkRow) (st : BMMergeState) (c : BookmarkChoice) : BMMergeState :=
  if c.choice == "ignore" then st
  else
    match bmResolve bms1 bms2 c with
    | none => st
    | some (b, isF1) =>
        let src := if isF1 then src1 else src2
        let title := match (if isF1 then c.editedTitle1 else c.editedTitle2) with
          | some t => some t
          | none => b.title
        bmProcess locMap locIds src st b title

/-- merge_bookmarks: fold the per-choice step over the caller payload. -/
def mergeBookmarks (table : List MergedBookmarkRow) (mapTable : List MMEntry)
    (locMap : IdMap) (locIds : List Nat) (src1 src2 : String)
    (bms1 bms2 : List BookmarkRow) (choices : List BookmarkChoice) : BMMergeState :=
  choices.foldl (bmStep locMap locIds src1 src2 bms1 bms2) ⟨table, mapTable, []⟩

/- ===================== Claim C3 ========================================== -/

/-- C3 is false as stated: a choice-both entry whose bookmark exists in
both sources (old ids 1 in source a and 2 in source b) inserts exactly
one merged row, resolved from source a; the returned mapping has no
entry for the (source b, 2) key, so no merged row is traceable back to
source b through the mapping. -/
theorem bookmark_both_counterexample :
    dget (mergeBookmarks [] [] [] [1, 2] "a" "b"
        [⟨1, some 1, some 2, 0, some "T", none, some 0, none⟩]
        [⟨2, some 1, some 2, 0, some "T", none, some 0, none⟩]
        [⟨"both", some 1, some 2, none, none⟩]).mapping ("b", 2) = none ∧
    dget (mergeBookmarks [] [] [] [1, 2] "a" "b"
        [⟨1, some 1, some 2, 0, some "T", none, some 0, none⟩]
        [⟨2, some 1, some 2, 0, some "T", none, some 0, none⟩]
        [⟨"both", some 1, some 2, none, none⟩]).mapping ("a", 1) = some 1 ∧
    (mergeBookmarks [] [] [] [1, 2] "a" "b"
        [⟨1, some 1, some 2, 0, some "T", none, some 0, none⟩]
        [⟨2, some 1, some 2, 0, some "T", none, some 0, none⟩]
        [⟨"both", some 1, some 2, none, none⟩]).table.length = 1 := by
  decide

/-- Every mapping entry bmProcess adds is keyed by the processed row. -/
theorem bmProcess_mapping_sub (locMap : IdMap) (locIds : List Nat) (src : String)
    (st : BMMergeState) (b : BookmarkRow) (title : Option String) :
    ∀ k v, dget (bmProcess locMap locIds src st b title).mapping k = some v →
      dget st.mapping k = some v ∨ k = (src, b.oldId) := by
  intro k v h
  unfold bmProcess at h
  split at h
  · split at h
    · exact dget_dset_cases _ _ _ _ _ h
    · split at h
      · exact dget_dset_cases _ _ _ _ _ h
      · exact dget_dset_cases _ _ _ _ _ h
  · exact Or.inl h

/-- C3 amended: a choice-both entry whose bookmark exists in source 1
resolves to source 1's row only; the single processed row is recorded (if
at all) under the (source1, oldId1) key, and no (source2, oldId) key is
ever recorded by that entry, so only one merged row, traceable to source
1, can come out of it. -/
theorem bookmark_both_amended (table : List MergedBookmarkRow) (mapTable : List MMEntry)
    (locMap : IdMap) (locIds : List Nat) (src1 src2 : String)
    (bms1 bms2 : List BookmarkRow) (c : BookmarkChoice) (b1 : BookmarkRow)
    (hsrc : src1 ≠ src2) (hc : c.choice = "both")
    (hfind : findBookmark bms1 c.id1 = some b1) :
    (∀ k v, dget (mergeBookmarks table mapTable locMap locIds src1 src2 bms1 bms2
        [c]).mapping k = some v → k = (src1, b1.oldId)) ∧
    (∀ o2, dget (mergeBookmarks table mapTable locMap locIds src1 src2 bms1 bms2
        [c]).mapping (src2, o2) = none) := by
  have hres : bmResolve bms1 bms2 c = some (b1, true) := by
    unfold bmResolve
    rw [hc]
    simp only [hfind]
    rfl
  have hmerge : mergeBookmarks table mapTable locMap locIds src1 src2 bms1 bms2 [c] =
      bmProcess locMap locIds src1 ⟨table, mapTable, []⟩ b1
        (match c.editedTitle1 with
         | some t => some t
         | none => b1.title) := by
    show bmStep locMap locIds src1 src2 bms1 bms2 ⟨table, mapTable, []⟩ c = _
    unfold bmStep
    rw [hc]
    simp only [hres]
    rfl
  have hkey : ∀ k v, dget (mergeBookmarks table mapTable locMap locIds src1 src2 bms1 bms2
      [c]).mapping k = some v → k = (src1, b1.oldId) := by
    intro k v h
    rw [hmerge] at h
    rcases bmProcess_mapping_sub locMap locIds src1 ⟨table, mapTable, []⟩ b1 _ k v h with
      h2 | h2
    · exact absurd h2 (by simp [dget, List.find?])
    · exact h2
  refine ⟨hkey, ?_⟩
  intro o2
  rcases h2 : dget (mergeBookmarks table mapTable locMap locIds src1 src2 bms1 bms2
      [c]).mapping (src2, o2) with _ | v
  · rfl
  · have h3 := hkey (src2, o2) v h2
    have h4 : src2 = src1 := congrArg Prod.fst h3
    exact absurd h4.symm hsrc

/- ===================== Note (merge_notes) ================================ -/

/-- A row of the merged Note table. -/
structure NoteRow where
  noteId : Nat
  guid : Option String
  userMarkId : Option Nat
  locationId : Option Nat
  title : Option String
  content : Option String
  lastModified : Option String
  created : Option String
  blockType : Option Int
  blockIdentifier : Option Int
deriving Repr, DecidableEq

/-- A source Note as produced by fetch_notes (the UserMark reference
already joined to its GUID inside the source database). -/
structure SrcNoteRow where
  oldId : Nat
  guid : Option String
  userMarkGuid : Option String
  locationId : Option Nat
  title : Option String
  content : Option String
  lastModified : Option String
  created : Option String
  blockType : Option Int
  blockIdentifier : Option Int
deriving Repr, DecidableEq

/-- One entry of the note_choices payload (selectedTags is the list used
for choice both; selectedTags1/2 model selectedTagsPerSource). -/
structure NoteChoice where
  choice : String
  id1 : Option Nat
  id2 : Option Nat
  editedTitle1 : Option String
  editedContent1 : Option String
  editedTitle2 : Option String
  editedContent2 : Option String
  selectedTags : List Nat
  selectedTags1 : List Nat
  selectedTags2 : List Nat
deriving Repr, DecidableEq

/-- State threaded through merge_notes: the merged Note table and the
in-memory note_mapping dict (merge_notes keeps no transient mapping
table), plus the uuid4 stream index. -/
structure NoteMergeState where
  table : List NoteRow
  mapping : IdMap
  freshIdx : Nat
deriving Repr, DecidableEq

/-- Python norm_map.get((normpath(db), location_id)) if location_id else
None: truthiness makes both NULL and 0 unmappable, and there is no
fallback to the old id (paths arrive normalized in this model). -/
def noteRemapLoc (locMap : IdMap) (src : String) (loc : Option Nat) : Option Nat :=
  match loc with
  | none => none
  | some l => if l = 0 then none else dget locMap (src, l)

/-- Python usermark_guid_map.get(usermark_guid) if usermark_guid else
None (the empty string is also falsy). -/
def remapUserMark (umMap : List (Option String × Nat)) (g : Option String) : Option Nat :=
  match g with
  | none => none
  | some s => if s = "" then none else dget umMap (some s)

/-- SELECT NoteId, Title, Content FROM Note WHERE Guid = ? (a NULL
parameter matches no row, and a NULL stored Guid is never matched). -/
def noteExisting (tbl : List NoteRow) (guid : Option String) : Option NoteRow :=
  tbl.find? (fun r => sqlEq r.guid guid)

/-- INSERT INTO Note (...) plus the mapping update; the new id is
lastrowid, i.e. max existing id + 1.  The IntegrityError fallback of the
source is unreachable in this relational model because inserts do not
throw. -/
def noteInsert (st : NoteMergeState) (src : String) (n : SrcNoteRow)
    (guidToInsert : Option String) (newLoc : Nat) (umId : Option Nat)
    (title content : Option String) : NoteMergeState :=
  { st with
    table := st.table ++
      [⟨(st.table.map (fun r => r.noteId)).foldl max 0 + 1, guidToInsert, umId,
        some newLoc, title, content, n.lastModified, n.created, n.blockType,
        n.blockIdentifier⟩],
    mapping := dset st.mapping (src, n.oldId)
      ((st.table.map (fun r => r.noteId)).foldl max 0 + 1) }

/-- The per-note core shared verbatim by the explicit-choice pass and the
two auto-include passes of merge_notes (server.py lines 877-931, 940-985
and 994-1038): skip when the LocationId does not remap; reuse the id of
a GUID match with identical (Title, Content); insert with a fresh GUID
when the GUID exists with differing content; and otherwise insert keeping
the source GUID, which may be NULL. -/
def noteProcess (fresh : Nat → String) (locMap : IdMap)
    (umMap : List (Option String × Nat)) (src : String) (st : NoteMergeState)
    (n : SrcNoteRow) (title content : Option String) : NoteMergeState :=
  match noteRemapLoc locMap src n.locationId with
  | none => st
  | some newLoc =>
    match noteExisting st.table n.guid with
    | some ex =>
        if ex.title == title && ex.content == content then
          { st with mapping := dset st.mapping (src, n.oldId) ex.noteId }
        else
          noteInsert { st with freshIdx := st.freshIdx + 1 } src n
            (some (fresh st.freshIdx)) newLoc (remapUserMark umMap n.userMarkGuid)
            title content
    | none =>
        noteInsert st src n n.guid newLoc (remapUserMark umMap n.userMarkGuid)
          title content

def findNote (notes : List SrcNoteRow) (o : Option Nat) : Option SrcNoteRow :=
  match o with
  | some i => notes.find? (fun n => n.oldId == i)
  | none => none

/-- Resolution of a note choice entry (choice both prefers the file1
note, falling back to the file2 note). -/
def noteResolve (notes1 notes2 : List SrcNoteRow) (c : NoteChoice) :
    Option (SrcNoteRow × Bool) :=
  if c.choice == "file1" then
    (findNote notes1 c.id1).map (fun n => (n, true))
  else if c.choice == "file2" then
    (findNote notes2 c.id2).map (fun n => (n, false))
  else if c.choice == "both" then
    match findNote notes1 c.id1 with
    | some n => some (n, true)
    | none =>
        match findNote notes2 c.id2 with
        | some n => some (n, false)
        | none => none
  else none

/-- Body of the explicit-choice loop of merge_notes. -/
def noteChoiceStep (fresh : Nat → String) (locMap : IdMap)
    (umMap : List (Option String × Nat)) (src1 src2 : String)
    (notes1 notes2 : List SrcNoteRow) (st : NoteMergeState) (c : NoteChoice) :
    NoteMergeState :=
  if c.choice == "ignore" then st
  else
    match noteResolve notes1 notes2 c with
    | none => st
    | some (n, isF1) =>
        noteProcess fresh locMap umMap (if isF1 then src1 else src2) st n
          (match (if isF1 then c.editedTitle1 else c.editedTitle2) with
           | some t => some t
           | none => n.title)
          (match (if isF1 then c.editedContent1 else c.editedContent2) with
           | some t => some t
           | none => n.content)

/-- Body of the two auto-include loops: process every source note whose
(source, oldId) key is not yet mapped. -/
def noteAutoStep (fresh : Nat → String) (locMap : IdMap)
    (umMap : List (Option String × Nat)) (src : String) (st : NoteMergeState)
    (n : SrcNoteRow) : NoteMergeState :=
  if (dget st.mapping (src, n.oldId)).isSome then st
  else noteProcess fresh locMap umMap src st n n.title n.content

/-- merge_notes: the explicit-choice pass, then the auto-include pass
over source 1, then the auto-include pass over source 2. -/
def mergeNotes (table : List NoteRow) (locMap : IdMap)
    (umMap : List (Option String × Nat)) (src1 src2 : String)
    (notes1 notes2 : List SrcNoteRow) (choices : List NoteChoice)
    (fresh : Nat → String) : NoteMergeState :=
  notes2.foldl (noteAutoStep fresh locMap umMap src2)
    (notes1.foldl (noteAutoStep fresh locMap umMap src1)
      (choices.foldl (noteChoiceStep fresh locMap umMap src1 src2 notes1 notes2)
        ⟨table, [], 0⟩))

/- ===================== Claim C4 ========================================== -/

/-- C4 is false as stated: a source note carrying no GUID is inserted by
the note merger with a NULL GUID; no GUID is synthesized for it. -/
theorem note_null_guid_counterexample :
    (mergeNotes [] [(("a", 1), 7)] [] "a" "b"
        [⟨5, none, none, some 1, some "t", some "c", none, none, none, none⟩] [] []
        (fun _ => "f0")).table =
      [⟨1, none, none, some 7, some "t", some "c", none, none, none, none⟩] ∧
    ∃ r, r ∈ (mergeNotes [] [(("a", 1), 7)] [] "a" "b"
        [⟨5, none, none, some 1, some "t", some "c", none, none, none, none⟩] [] []
        (fun _ => "f0")).table ∧ r.guid = none := by
  refine ⟨by decide, ⟨⟨1, none, none, some 7, some "t", some "c", none, none, none,
    none⟩, by decide, rfl⟩⟩

/-- C4 amended: for every processed source note whose LocationId remaps,
the note merger reuses the existing id with no insert when the GUID
already exists with identical (Title, Content); inserts under a freshly
synthesized GUID when the GUID exists with differing content; and
otherwise inserts the row keeping the source GUID as is, so a note with
no GUID is inserted with a NULL GUID (no GUID is synthesized for it). -/
theorem note_guid_amended (fresh : Nat → String) (locMap : IdMap)
    (umMap : List (Option String × Nat)) (src : String) (st : NoteMergeState)
    (n : SrcNoteRow) (title content : Option String) (newLoc : Nat)
    (hloc : noteRemapLoc locMap src n.locationId = some newLoc) :
    (∀ ex, noteExisting st.table n.guid = some ex →
      (ex.title == title && ex.content == content) = true →
      noteProcess fresh locMap umMap src st n title content =
        { st with mapping := dset st.mapping (src, n.oldId) ex.noteId }) ∧
    (∀ ex, noteExisting st.table n.guid = some ex →
      (ex.title == title && ex.content == content) = false →
      noteProcess fresh locMap umMap src st n title content =
        noteInsert { st with freshIdx := st.freshIdx + 1 } src n
          (some (fresh st.freshIdx)) newLoc (remapUserMark umMap n.userMarkGuid)
          title content) ∧
    (noteExisting st.table n.guid = none →
      noteProcess fresh locMap umMap src st n title content =
        noteInsert st src n n.guid newLoc (remapUserMark umMap n.userMarkGuid)
          title content) := by
  refine ⟨?_, ?_, ?_⟩
  · intro ex hex heq
    simp only [noteProcess, hloc, hex, heq, if_true]
  · intro ex hex hne
    simp only [noteProcess, hloc, hex, hne, Bool.false_eq_true, if_false]
  · intro hnone
    simp only [noteProcess, hloc, hnone]

/-- Witness for note_guid_amended at a concrete input (the no-GUID
branch). -/
theorem note_guid_amended_witness :
    noteProcess (fun _ => "f0") [(("a", 1), 7)] [] "a" ⟨[], [], 0⟩
      ⟨5, none, none, some 1, some "t", some "c", none, none, none, none⟩
      (some "t") (some "c") =
    noteInsert ⟨[], [], 0⟩ "a"
      ⟨5, none, none, some 1, some "t", some "c", none, none, none, none⟩
      none 7 none (some "t") (some "c") :=
  (note_guid_amended (fun _ => "f0") [(("a", 1), 7)] [] "a" ⟨[], [], 0⟩
    ⟨5, none, none, some 1, some "t", some "c", none, none, none, none⟩
    (some "t") (some "c") 7 (by decide)).2.2 (by decide)

/- ===================== Claim C5 ========================================== -/

/-- Number of table rows at the probed publication location with slot at
least s: the strictly decreasing measure of the probe loop. -/
def bmBusy (tbl : List MergedBookmarkRow) (pub : Option Nat) (s : Int) : Nat :=
  tbl.countP (fun r => sqlEq r.publicationLocationId pub && decide (s ≤ r.slot))

theorem bmBusy_succ_le (tbl : List MergedBookmarkRow) (pub : Option Nat) (s : Int) :
    bmBusy tbl pub (s + 1) ≤ bmBusy tbl pub s := by
  induction tbl with
  | nil => exact Nat.le_refl 0
  | cons r t ih =>
      unfold bmBusy at ih ⊢
      simp only [List.countP_cons]
      by_cases hm : (sqlEq r.publicationLocationId pub && decide (s + 1 ≤ r.slot)) = true
      · have hle : s ≤ r.slot := by
          have h2 : (s + 1 : Int) ≤ r.slot := of_decide_eq_true (Bool.and_elim_right hm)
          omega
        have hm0 : (sqlEq r.publicationLocationId pub && decide (s ≤ r.slot)) = true := by
          rw [Bool.and_eq_true] at hm ⊢
          exact ⟨hm.1, decide_eq_true hle⟩
        simp only [hm, hm0, if_true]
        omega
      · simp only [bool_eq_false hm, Bool.false_eq_true, if_false]
        by_cases hm0 : (sqlEq r.publicationLocationId pub && decide (s ≤ r.slot)) = true
        · simp only [hm0, if_true]
          omega
        · simp only [bool_eq_false hm0, Bool.false_eq_true, if_false]
          omega

theorem bmBusy_decrease (tbl : List MergedBookmarkRow) (pub : Option Nat) (s : Int)
    (h : bmOccupied tbl pub s = true) : bmBusy tbl pub (s + 1) < bmBusy tbl pub s := by
  induction tbl with
  | nil => simp [bmOccupied] at h
  | cons r t ih =>
      unfold bmOccupied at h ih
      rw [List.any_cons] at h
      unfold bmBusy
      simp only [List.countP_cons]
      by_cases hr : (sqlEq r.publicationLocationId pub && decide (r.slot = s)) = true
      · have hslot : r.slot = s := of_decide_eq_true (Bool.and_elim_right hr)
        have hm1 : (sqlEq r.publicationLocationId pub && decide (s + 1 ≤ r.slot)) = false := by
          rw [Bool.and_eq_false_iff]
          right
          rw [decide_eq_false_iff_not]
          omega
        have hm0 : (sqlEq r.publicationLocationId pub && decide (s ≤ r.slot)) = true := by
          rw [Bool.and_eq_true]
          exact ⟨Bool.and_elim_left hr, decide_eq_true (by omega)⟩
        simp only [hm1, hm0, if_true, Bool.false_eq_true, if_false]
        have h2 := bmBusy_succ_le t pub s
        unfold bmBusy at h2
        omega
      · have ht : t.any (fun r => sqlEq r.publicationLocationId pub &&
            decide (r.slot = s)) = true := by
          rw [bool_eq_false hr] at h
          simpa using h
        have ih2 := ih ht
        unfold bmBusy at ih2
        by_cases hm1 : (sqlEq r.publicationLocationId pub && decide (s + 1 ≤ r.slot)) = true
        · have hm0 : (sqlEq r.publicationLocationId pub && decide (s ≤ r.slot)) = true := by
            rw [Bool.and_eq_true] at hm1 ⊢
            refine ⟨hm1.1, decide_eq_true ?_⟩
            have h2 : (s + 1 : Int) ≤ r.slot := of_decide_eq_true hm1.2
            omega
          simp only [hm1, hm0, if_true]
          omega
        · simp only [bool_eq_false hm1, Bool.false_eq_true, if_false]
          by_cases hm0 : (sqlEq r.publicationLocationId pub && decide (s ≤ r.slot)) = true
          · simp only [hm0, if_true]
            omega
          · simp only [bool_eq_false hm0, Bool.false_eq_true, if_false]
            omega

/-- With enough fuel (strictly more than the measure allows), the probe
ends on a free (PublicationLocationId, Slot) pair. -/
theorem probeSlot_free : ∀ (fuel : Nat) (tbl : List MergedBookmarkRow) (pub : Option Nat)
    (s : Int), bmBusy tbl pub s < fuel →
    bmOccupied tbl pub (probeSlot fuel tbl pub s) = false := by
  intro fuel
  induction fuel with
  | zero => intro tbl pub s h; exact absurd h (Nat.not_lt_zero _)
  | succ f ih =>
      intro tbl pub s h
      unfold probeSlot
      by_cases hocc : bmOccupied tbl pub s = true
      · rw [if_pos hocc]
        apply ih
        have h2 := bmBusy_decrease tbl pub s hocc
        omega
      · rw [if_neg hocc]
        exact bool_eq_false hocc

/-- The uniqueness invariant of C5: no two rows of the merged Bookmark
table share the same (PublicationLocationId, Slot) pair. -/
def bmSlotUnique (tbl : List MergedBookmarkRow) : Prop :=
  tbl.Pairwise (fun a b =>
    ¬(a.publicationLocationId = b.publicationLocationId ∧ a.slot = b.slot))

theorem nodup_filter_single_le_one (x : Nat) :
    ∀ l : List Nat, l.Nodup → (l.filter (fun i => sqlEq (some i) (some x))).length ≤ 1 := by
  intro l
  induction l with
  | nil => intro h; simp
  | cons a t ih =>
      intro h
      rw [List.nodup_cons] at h
      by_cases ha : a = x
      · subst ha
        have ht : t.filter (fun i => sqlEq (some i) (some a)) = [] := by
          rw [List.filter_eq_nil_iff]
          intro b hb hpred
          have hba : b = a := by simpa [sqlEq] using hpred
          exact h.1 (hba ▸ hb)
        rw [List.filter_cons_of_pos (by simp [sqlEq]), ht]
        simp
      · rw [List.filter_cons_of_neg (by simp [sqlEq, ha])]
        exact ih h.2

/-- The IN (?, ?) existence test only passes when the remapped
PublicationLocationId is non-NULL (given that merged LocationIds are
unique, as the primary key guarantees). -/
theorem locationIdsPresent_pub_some (locIds : List Nat) (a b : Option Nat)
    (hnodup : locIds.Nodup) (h : locationIdsPresent locIds a b = true) :
    ∃ y, b = some y := by
  rcases b with _ | y
  · exfalso
    unfold locationIdsPresent at h
    rcases a with _ | x
    · simp [sqlEq] at h
    · have hsub : (locIds.filter (fun i => sqlEq (some i) (some x) ||
          sqlEq (some i) (none : Option Nat))).length ≤ 1 := by
        have heq : locIds.filter (fun i => sqlEq (some i) (some x) ||
            sqlEq (some i) (none : Option Nat)) =
            locIds.filter (fun i => sqlEq (some i) (some x)) := by
          apply List.filter_congr
          intro i hi
          simp [sqlEq]
        rw [heq]
        exact nodup_filter_single_le_one x locIds hnodup
      rw [decide_eq_true_eq] at h
      omega
  · exact ⟨y, rfl⟩

theorem bmOccupied_false_no_match (tbl : List MergedBookmarkRow) (p : Nat) (s : Int)
    (h : bmOccupied tbl (some p) s = false) :
    ∀ r ∈ tbl, ¬(r.publicationLocationId = some p ∧ r.slot = s) := by
  intro r hr ⟨h1, h2⟩
  have : tbl.any (fun r => sqlEq r.publicationLocationId (some p) &&
      decide (r.slot = s)) = true := by
    rw [List.any_eq_true]
    refine ⟨r, hr, ?_⟩
    rw [Bool.and_eq_true]
    constructor
    · rw [h1]
      simp [sqlEq]
    · exact decide_eq_true h2
  rw [bmOccupied] at h
  rw [h] at this
  exact absurd this (by simp)

/-- bmProcess preserves the slot-uniqueness invariant. -/
theorem bmProcess_slot_unique (locMap : IdMap) (locIds : List Nat) (src : String)
    (st : BMMergeState) (b : BookmarkRow) (title : Option String)
    (hnodup : locIds.Nodup) (hinv : bmSlotUnique st.table) :
    bmSlotUnique (bmProcess locMap locIds src st b title).table := by
  unfold bmProcess
  split
  · rename_i hpresent
    split
    · exact hinv
    · split
      · exact hinv
      · rename_i hmm hfind
        obtain ⟨p, hp⟩ := locationIdsPresent_pub_some locIds _ _ hnodup hpresent
        unfold bmSlotUnique
        rw [List.pairwise_append]
        refine ⟨hinv, by simp, ?_⟩
        intro a ha b2 hb2
        have hb2e : b2 = ⟨(st.table.map (fun r => r.bookmarkId)).foldl max 0 + 1,
            remapLoc locMap src b.locationId,
            remapLoc locMap src b.publicationLocationId,
            probeSlot (st.table.length + 1) st.table
              (remapLoc locMap src b.publicationLocationId) b.slot,
            title, b.snippet, b.blockType, b.blockIdentifier⟩ := by
          simpa using hb2
        have hfree : bmOccupied st.table (remapLoc locMap src b.publicationLocationId)
            (probeSlot (st.table.length + 1) st.table
              (remapLoc locMap src b.publicationLocationId) b.slot) = false := by
          apply probeSlot_free
          have hle : bmBusy st.table (remapLoc locMap src b.publicationLocationId) b.slot ≤
              st.table.length := List.countP_le_length _
          omega
        rw [hp] at hfree
        have hnm := bmOccupied_false_no_match st.table p _ hfree a ha
        intro hcontra
        apply hnm
        rw [hb2e] at hcontra
        simp only at hcontra
        rw [hp] at hcontra
        exact hcontra
  · exact hinv

/-- bmStep preserves the slot-uniqueness invariant. -/
theorem bmStep_slot_unique (locMap : IdMap) (locIds : List Nat) (src1 src2 : String)
    (bms1 bms2 : List BookmarkRow) (st : BMMergeState) (c : BookmarkChoice)
    (hnodup : locIds.Nodup) (hinv : bmSlotUnique st.table) :
    bmSlotUnique (bmStep locMap locIds src1 src2 bms1 bms2 st c).table := by
  unfold bmStep
  split
  · exact hinv
  · split
    · exact hinv
    · exact bmProcess_slot_unique _ _ _ _ _ _ hnodup hinv

/-- C5: after the bookmark merger completes, no two rows of the merged
Bookmark table share the same (PublicationLocationId, Slot) pair,
provided the table it starts from already satisfies that invariant (the
pipeline starts it empty) and the merged LocationIds are unique; each
freshly inserted bookmark sits at the first free slot found by probing
(PublicationLocationId, Slot) upward by 1 from its original slot. -/
theorem bookmark_slot_unique (table : List MergedBookmarkRow) (mapTable : List MMEntry)
    (locMap : IdMap) (locIds : List Nat) (src1 src2 : String)
    (bms1 bms2 : List BookmarkRow) (choices : List BookmarkChoice)
    (hnodup : locIds.Nodup) (hinv : bmSlotUnique table) :
    bmSlotUnique (mergeBookmarks table mapTable locMap locIds src1 src2 bms1 bms2
      choices).table := by
  unfold mergeBookmarks
  have hgen : ∀ (cs : List BookmarkChoice) (st : BMMergeState), bmSlotUnique st.table →
      bmSlotUnique (cs.foldl (bmStep locMap locIds src1 src2 bms1 bms2) st).table := by
    intro cs
    induction cs with
    | nil => intro st h; exact h
    | cons c t ih =>
        intro st h
        exact ih _ (bmStep_slot_unique locMap locIds src1 src2 bms1 bms2 st c hnodup h)
  exact hgen choices ⟨table, mapTable, []⟩ hinv

/-- Witness for bookmark_slot_unique at a concrete input: both sources
hold a bookmark at (PublicationLocationId 2, Slot 0) and both rows are
kept, so the probe places the second at slot 1. -/
theorem bookmark_slot_unique_witness :
    ([2, 1] : List Nat).Nodup ∧ bmSlotUnique [] ∧
    bmSlotUnique (mergeBookmarks [] [] [] [2, 1] "a" "b"
      [⟨1, some 1, some 2, 0, some "T", none, some 0, none⟩]
      [⟨2, some 1, some 2, 0, some "U", none, some 0, none⟩]
      [⟨"file1", some 1, none, none, none⟩, ⟨"file2", none, some 2, none, none⟩]).table :=
  ⟨by decide, by simp [bmSlotUnique], bookmark_slot_unique [] [] [] [2, 1] "a" "b"
    [⟨1, some 1, some 2, 0, some "T", none, some 0, none⟩]
    [⟨2, some 1, some 2, 0, some "U", none, some 0, none⟩]
    [⟨"file1", some 1, none, none, none⟩, ⟨"file2", none, some 2, none, none⟩]
    (by decide) (by simp [bmSlotUnique])⟩

/-- Witness for bookmark_both_amended at a concrete input. -/
theorem bookmark_both_amended_witness :
    (∀ k v, dget (mergeBookmarks [] [] [] [1, 2] "a" "b"
        [⟨1, some 1, some 2, 0, some "T", none, some 0, none⟩]
        [⟨2, some 1, some 2, 5, some "U", none, some 0, none⟩]
        [⟨"both", some 1, some 2, none, none⟩]).mapping k = some v → k = ("a", 1)) ∧
    (∀ o2, dget (mergeBookmarks [] [] [] [1, 2] "a" "b"
        [⟨1, some 1, some 2, 0, some "T", none, some 0, none⟩]
        [⟨2, some 1, some 2, 5, some "U", none, some 0, none⟩]
        [⟨"both", some 1, some 2, none, none⟩]).mapping ("b", o2) = none) :=
  bookmark_both_amended [] [] [] [1, 2] "a" "b"
    [⟨1, some 1, some 2, 0, some "T", none, some 0, none⟩]
    [⟨2, some 1, some 2, 5, some "U", none, some 0, none⟩]
    ⟨"both", some 1, some 2, none, none⟩
    ⟨1, some 1, some 2, 0, some "T", none, some 0, none⟩
    (by decide) rfl (by decide)

/- ===================== Tag and TagMap (merge_tags_and_tagmap) ============ -/

/-- A row of the merged Tag table. -/
structure TagRow where
  tagId : Nat
  tagType : Option Int
  name : Option String
deriving Repr, DecidableEq

/-- A Tag row read from one source database. -/
structure SrcTagRow where
  oldId : Nat
  tagType : Option Int
  name : Option String
deriving Repr, DecidableEq

/-- A row of the merged TagMap table. -/
structure TagMapRow where
  tagMapId : Nat
  playlistItemId : Option Nat
  locationId : Option Nat
  noteId : Option Nat
  tagId : Nat
  position : Int
deriving Repr, DecidableEq

/-- A TagMap row read from one source database. -/
structure SrcTagMapRow where
  oldId : Nat
  playlistItemId : Option Nat
  locationId : Option Nat
  noteId : Option Nat
  oldTagId : Nat
  position : Int
deriving Repr, DecidableEq

/-- State of the Tag pass: merged Tag table, MergeMapping_Tag, the
running max TagId, and the returned tag_id_map dict. -/
structure TagMergeState where
  tags : List TagRow
  mapTable : List MMEntry
  maxTagId : Nat
  tagIdMap : IdMap
deriving Repr, DecidableEq

/-- Body of the per-tag loop (duplicated verbatim for the two sources in
the Python): resolve through MergeMapping_Tag, then through a
(Type, Name) match with plain SQL equality, else insert with id max+1. -/
def tagStep (src : String) (st : TagMergeState) (t : SrcTagRow) : TagMergeState :=
  match mmLookup st.mapTable src t.oldId with
  | some nid => { st with tagIdMap := dset st.tagIdMap (src, t.oldId) nid }
  | none =>
    match st.tags.find? (fun r => sqlEq r.tagType t.tagType && sqlEq r.name t.name) with
    | some ex =>
        { st with tagIdMap := dset st.tagIdMap (src, t.oldId) ex.tagId,
                  mapTable := mmInsertOrIgnore st.mapTable src t.oldId ex.tagId }
    | none =>
        { tags := st.tags ++ [⟨st.maxTagId + 1, t.tagType, t.name⟩],
          maxTagId := st.maxTagId + 1,
          tagIdMap := dset st.tagIdMap (src, t.oldId) (st.maxTagId + 1),
          mapTable := mmInsertOrIgnore st.mapTable src t.oldId (st.maxTagId + 1) }

/-- State of the TagMap pass. -/
structure TagMapMergeState where
  tagMaps : List TagMapRow
  mapTable : List MMEntry
  maxTagMapId : Nat
  tagMapIdMap : IdMap
deriving Repr, DecidableEq

/-- SQL IFNULL(id, -1) on a numeric id column. -/
def ifnullNeg1 (o : Option Nat) : Int :=
  match o with
  | some n => (n : Int)
  | none => -1

/-- Duplicate test of the TagMap pass
(TagId, IFNULL-columns, Position all equal). -/
def tmDupMatches (r : TagMapRow) (tagId : Nat) (pi loc note : Option Nat)
    (pos : Int) : Bool :=
  decide (r.tagId = tagId) &&
  decide (ifnullNeg1 r.playlistItemId = ifnullNeg1 pi) &&
  decide (ifnullNeg1 r.locationId = ifnullNeg1 loc) &&
  decide (ifnullNeg1 r.noteId = ifnullNeg1 note) &&
  decide (r.position = pos)

/-- SELECT 1 FROM TagMap WHERE TagId = ? AND Position = ?. -/
def tmPosOccupied (tbl : List TagMapRow) (tagId : Nat) (pos : Int) : Bool :=
  tbl.any (fun r => decide (r.tagId = tagId) && decide (r.position = pos))

/-- Position-collision probe of the TagMap pass (fuel-run unbounded
Python loop, as for bookmark slots). -/
def probePosition : Nat → List TagMapRow → Nat → Int → Int
  | 0, _, _, p => p
  | fuel + 1, tbl, tagId, p =>
      if tmPosOccupied tbl tagId p then probePosition fuel tbl tagId (p + 1) else p

/-- Resolved union-foreign-key count of a prospective TagMap row. -/
def tmCount (note loc pi : Option Nat) : Nat :=
  (if note.isSome then 1 else 0) + (if loc.isSome then 1 else 0) +
    (if pi.isSome then 1 else 0)

/-- Body of the per-TagMap-row loop: resolve the TagId (skip on miss),
resolve NoteId with Python truthiness and skip on miss, resolve
LocationId and PlaylistItemId with truthiness but no skip, require the
resolved target count be exactly one, skip duplicates, probe the
position, insert with id max+1. -/
def tagMapStep (tagIdMap noteMap locMap itemMap : IdMap) (src : String)
    (st : TagMapMergeState) (r : SrcTagMapRow) : TagMapMergeState :=
  match dget tagIdMap (src, r.oldTagId) with
  | none => st
  | some newTag =>
    match (match r.noteId with
           | some ni =>
               if ni = 0 then some none
               else
                 match dget noteMap (src, ni) with
                 | none => none
                 | some nn => some (some nn)
           | none => some none : Option (Option Nat)) with
    | none => st
    | some newNote =>
        if tmCount newNote
            (match r.locationId with
             | some li => if li = 0 then none else dget locMap (src, li)
             | none => none)
            (match r.playlistItemId with
             | some pi => if pi = 0 then none else dget itemMap (src, pi)
             | none => none) = 1 then
          if (st.tagMaps.find? (fun q => tmDupMatches q newTag
              (match r.playlistItemId with
               | some pi => if pi = 0 then none else dget itemMap (src, pi)
               | none => none)
              (match r.locationId with
               | some li => if li = 0 then none else dget locMap (src, li)
               | none => none)
              newNote r.position)).isSome then st
          else
            { tagMaps := st.tagMaps ++
                [⟨st.maxTagMapId + 1,
                  (match r.playlistItemId with
                   | some pi => if pi = 0 then none else dget itemMap (src, pi)
                   | none => none),
                  (match r.locationId with
                   | some li => if li = 0 then none else dget locMap (src, li)
                   | none => none),
                  newNote, newTag,
                  probePosition (st.tagMaps.length + 1) st.tagMaps newTag r.position⟩],
              mapTable := st.mapTable ++ [⟨src, r.oldId, st.maxTagMapId + 1⟩],
              maxTagMapId := st.maxTagMapId + 1,
              tagMapIdMap := dset st.tagMapIdMap (src, r.oldId) (st.maxTagMapId + 1) }
        else st

/-- merge_tags_and_tagmap: the Tag pass over both sources, then the
TagMap pass over both sources using the tag_id_map the Tag pass built. -/
def mergeTagsAndTagmap (tags : List TagRow) (tagMaps : List TagMapRow)
    (mmTag mmTagMap : List MMEntry) (noteMap locMap itemMap : IdMap)
    (src1 src2 : String) (tags1 tags2 : List SrcTagRow)
    (tms1 tms2 : List SrcTagMapRow) : TagMergeState × TagMapMergeState :=
  let ts1 := tags2.foldl (tagStep src2) (tags1.foldl (tagStep src1)
    ⟨tags, mmTag, (tags.map (fun r => r.tagId)).foldl max 0, []⟩)
  (ts1,
   tms2.foldl (tagMapStep ts1.tagIdMap noteMap locMap itemMap src2)
     (tms1.foldl (tagMapStep ts1.tagIdMap noteMap locMap itemMap src1)
       ⟨tagMaps, mmTagMap, (tagMaps.map (fun r => r.tagMapId)).foldl max 0, []⟩))

/- ===================== apply_selected_tags =============================== -/

/-- COALESCE(MAX(Position), 0) + 1 over the rows of one TagId. -/
def nextPosition (tbl : List TagMapRow) (tagId : Nat) : Int :=
  ((tbl.filter (fun r => decide (r.tagId = tagId))).map (fun r => r.position)).foldl
    max 0 + 1

/-- apply_selected_tags for one note of one source: resolve the merged
NoteId (Python truthiness on both ids, skip on miss), delete every TagMap
row of that note, and reinsert one row per selected old TagId that
resolves through tag_id_map, at the next free position of its tag. -/
def applySelectedTagsNote (noteMap tagIdMap : IdMap) (src : String)
    (oldNote : Option Nat) (selected : List Nat) (tbl : List TagMapRow) :
    List TagMapRow :=
  match oldNote with
  | none => tbl
  | some oni =>
    if oni = 0 then tbl
    else
      match dget noteMap (src, oni) with
      | none => tbl
      | some newNote =>
          if newNote = 0 then tbl
          else
            selected.foldl (fun acc tagOld =>
              match dget tagIdMap (src, tagOld) with
              | none => acc
              | some newTag =>
                  acc ++ [⟨(acc.map (fun r => r.tagMapId)).foldl max 0 + 1,
                    none, none, some newNote, newTag, nextPosition acc newTag⟩])
              (tbl.filter (fun r => !(decide (r.noteId = some newNote))))

/-- Body of the per-choice loop of apply_selected_tags. -/
def applySelectedTagsStep (noteMap tagIdMap : IdMap) (src1 src2 : String)
    (tbl : List TagMapRow) (c : NoteChoice) : List TagMapRow :=
  if c.choice == "ignore" then tbl
  else if c.choice == "both" then
    applySelectedTagsNote noteMap tagIdMap src2 c.id2 c.selectedTags
      (applySelectedTagsNote noteMap tagIdMap src1 c.id1 c.selectedTags tbl)
  else if c.choice == "file1" then
    applySelectedTagsNote noteMap tagIdMap src1 c.id1 c.selectedTags1 tbl
  else if c.choice == "file2" then
    applySelectedTagsNote noteMap tagIdMap src2 c.id2 c.selectedTags2 tbl
  else tbl

/-- apply_selected_tags over the whole note_choices payload. -/
def applySelectedTags (noteMap tagIdMap : IdMap) (src1 src2 : String)
    (choices : List NoteChoice) (tbl : List TagMapRow) : List TagMapRow :=
  choices.foldl (applySelectedTagsStep noteMap tagIdMap src1 src2) tbl

/- ===================== Claim C6 ========================================== -/

/-- Number of non-NULL entries among (NoteId, LocationId, PlaylistItemId)
of a merged TagMap row. -/
def tmTargetCount (r : TagMapRow) : Nat :=
  (if r.noteId.isSome then 1 else 0) + (if r.locationId.isSome then 1 else 0) +
    (if r.playlistItemId.isSome then 1 else 0)

/-- The union-foreign-key invariant of C6: every TagMap row references
exactly one of Note, Location, PlaylistItem. -/
def unionFKOk (tbl : List TagMapRow) : Prop :=
  ∀ r ∈ tbl, tmTargetCount r = 1

theorem tagMapStep_unionFK (tagIdMap noteMap locMap itemMap : IdMap) (src : String)
    (st : TagMapMergeState) (r : SrcTagMapRow) (hinv : unionFKOk st.tagMaps) :
    unionFKOk (tagMapStep tagIdMap noteMap locMap itemMap src st r).tagMaps := by
  unfold tagMapStep
  split
  · exact hinv
  · split
    · exact hinv
    · split
      · rename_i hcount
        split
        · exact hinv
        · intro q hq
          rcases List.mem_append.mp hq with h | h
          · exact hinv q h
          · have hqe := List.mem_singleton.mp h
            rw [hqe]
            simpa [tmTargetCount, tmCount] using hcount
      · exact hinv

theorem applyFold_unionFK (tagIdMap : IdMap) (src : String) (newNote : Nat) :
    ∀ (selected : List Nat) (acc : List TagMapRow), unionFKOk acc →
      unionFKOk (selected.foldl (fun acc tagOld =>
        match dget tagIdMap (src, tagOld) with
        | none => acc
        | some newTag =>
            acc ++ [⟨(acc.map (fun r => r.tagMapId)).foldl max 0 + 1,
              none, none, some newNote, newTag, nextPosition acc newTag⟩]) acc) := by
  intro selected
  induction selected with
  | nil => intro acc h; exact h
  | cons tagOld t ih =>
      intro acc h
      rw [List.foldl_cons]
      apply ih
      rcases hd : dget tagIdMap (src, tagOld) with _ | newTag
      · simpa [hd] using h
      · simp only [hd]
        intro q hq
        rcases List.mem_append.mp hq with h2 | h2
        · exact h q h2
        · have hqe := List.mem_singleton.mp h2
          rw [hqe]
          rfl

theorem applySelectedTagsNote_unionFK (noteMap tagIdMap : IdMap) (src : String)
    (oldNote : Option Nat) (selected : List Nat) (tbl : List TagMapRow)
    (hinv : unionFKOk tbl) :
    unionFKOk (applySelectedTagsNote noteMap tagIdMap src oldNote selected tbl) := by
  unfold applySelectedTagsNote
  split
  · exact hinv
  · split
    · exact hinv
    · split
      · exact hinv
      · rename_i newNote hnn
        split
        · exact hinv
        · apply applyFold_unionFK
          intro q hq
          exact hinv q (List.mem_of_mem_filter hq)

theorem applySelectedTagsStep_unionFK (noteMap tagIdMap : IdMap) (src1 src2 : String)
    (tbl : List TagMapRow) (c : NoteChoice) (hinv : unionFKOk tbl) :
    unionFKOk (applySelectedTagsStep noteMap tagIdMap src1 src2 tbl c) := by
  unfold applySelectedTagsStep
  split
  · exact hinv
  · split
    · exact applySelectedTagsNote_unionFK _ _ _ _ _ _
        (applySelectedTagsNote_unionFK _ _ _ _ _ _ hinv)
    · split
      · exact applySelectedTagsNote_unionFK _ _ _ _ _ _ hinv
      · split
        · exact applySelectedTagsNote_unionFK _ _ _ _ _ _ hinv
        · exact hinv

/-- C6: every TagMap row present after the tag/tagmap merge, and still
after any sequence of apply_selected_tags passes, has exactly one of
NoteId, LocationId, PlaylistItemId non-null, provided the TagMap table
the merge starts from satisfies the invariant (the pipeline starts it
empty); source rows whose resolved target count is 0 or at least 2 are
skipped and never inserted. -/
theorem tagmap_union_fk :
    (∀ (tags : List TagRow) (tagMaps : List TagMapRow) (mmTag mmTagMap : List MMEntry)
      (noteMap locMap itemMap : IdMap) (src1 src2 : String)
      (tags1 tags2 : List SrcTagRow) (tms1 tms2 : List SrcTagMapRow),
      unionFKOk tagMaps →
      unionFKOk (mergeTagsAndTagmap tags tagMaps mmTag mmTagMap noteMap locMap itemMap
        src1 src2 tags1 tags2 tms1 tms2).2.tagMaps) ∧
    (∀ (noteMap tagIdMap : IdMap) (src1 src2 : String) (choices : List NoteChoice)
      (tbl : List TagMapRow), unionFKOk tbl →
      unionFKOk (applySelectedTags noteMap tagIdMap src1 src2 choices tbl)) := by
  constructor
  · intro tags tagMaps mmTag mmTagMap noteMap locMap itemMap src1 src2 tags1 tags2
      tms1 tms2 hinv
    have hfold : ∀ (tagIdMap : IdMap) (src : String) (rows : List SrcTagMapRow)
        (st : TagMapMergeState), unionFKOk st.tagMaps →
        unionFKOk ((rows.foldl (tagMapStep tagIdMap noteMap locMap itemMap src)
          st)).tagMaps := by
      intro tagIdMap src rows
      induction rows with
      | nil => intro st h; exact h
      | cons r t ih =>
          intro st h
          exact ih _ (tagMapStep_unionFK tagIdMap noteMap locMap itemMap src st r h)
    exact hfold _ src2 tms2 _ (hfold _ src1 tms1 _ hinv)
  · intro noteMap tagIdMap src1 src2 choices
    induction choices with
    | nil => intro tbl h; exact h
    | cons c t ih =>
        intro tbl h
        exact ih _ (applySelectedTagsStep_unionFK noteMap tagIdMap src1 src2 tbl c h)

/-- Witness for tagmap_union_fk at a concrete input: one source TagMap
row is inserted targeting a note, one reinserted by apply_selected_tags,
and the invariant holds on the result. -/
theorem tagmap_union_fk_witness :
    unionFKOk (mergeTagsAndTagmap [] [] [] [] [(("a", 3), 9)] [] [] "a" "b"
      [⟨1, some 0, some "cat"⟩] [] [⟨1, none, none, some 3, 1, 0⟩] []).2.tagMaps ∧
    unionFKOk (applySelectedTags [(("a", 3), 9)] [(("a", 1), 1)] "a" "b"
      [⟨"both", some 3, none, none, none, none, none, [1], [], []⟩] []) :=
  ⟨tagmap_union_fk.1 [] [] [] [] [(("a", 3), 9)] [] [] "a" "b"
      [⟨1, some 0, some "cat"⟩] [] [⟨1, none, none, some 3, 1, 0⟩] []
      (by intro r hr; simp at hr),
   tagmap_union_fk.2 [(("a", 3), 9)] [(("a", 1), 1)] "a" "b"
      [⟨"both", some 3, none, none, none, none, none, [1], [], []⟩] []
      (by intro r hr; simp at hr)⟩

/- ===================== IndependentMedia (merge_independent_media) ======== -/

/-- A row of the merged IndependentMedia table. -/
structure MediaRow where
  mediaId : Nat
  originalFilename : Option String
  filePath : Option String
  mimeType : Option String
  hash : Option String
deriving Repr, DecidableEq

/-- An IndependentMedia row read from one source database. -/
structure SrcMediaRow where
  oldId : Nat
  originalFilename : Option String
  filePath : Option String
  mimeType : Option String
  hash : Option String
deriving Repr, DecidableEq

/-- Body of the per-row loop of merge_independent_media: reuse the id of
a (OriginalFilename, FilePath, Hash) match (its MimeType is left alone),
else insert with lastrowid max+1. -/
def mediaStep (src : String) (p : List MediaRow × IdMap) (m : SrcMediaRow) :
    List MediaRow × IdMap :=
  match p.1.find? (fun r => sqlEq r.originalFilename m.originalFilename &&
      sqlEq r.filePath m.filePath && sqlEq r.hash m.hash) with
  | some ex => (p.1, dset p.2 (src, m.oldId) ex.mediaId)
  | none =>
      ((p.1 ++ [⟨(p.1.map (fun r => r.mediaId)).foldl max 0 + 1, m.originalFilename,
        m.filePath, m.mimeType, m.hash⟩]),
       dset p.2 (src, m.oldId) ((p.1.map (fun r => r.mediaId)).foldl max 0 + 1))

/-- merge_independent_media over both sources. -/
def mergeIndependentMedia (tbl : List MediaRow) (src1 src2 : String)
    (ms1 ms2 : List SrcMediaRow) : List MediaRow × IdMap :=
  ms2.foldl (mediaStep src2) (ms1.foldl (mediaStep src1) (tbl, []))

/- ===================== merge_data pipeline =============================== -/

/-- The relational content of one uploaded source database. -/
structure SourceDb where
  tables : List String
  locations : List (Nat × LocationData)
  media : List SrcMediaRow
  userMarks : List SrcUserMarkRow
  notes : List SrcNoteRow
  bookmarks : List BookmarkRow
  tags : List SrcTagRow
  tagMaps : List SrcTagMapRow
deriving Repr

/-- The relational content of the merged output database, together with
the transient MergeMapping tables. -/
structure MergedDb where
  tables : List String
  locations : List LocationRow
  media : List MediaRow
  userMarks : List UserMarkRow
  lastModified : List String
  notes : List NoteRow
  bookmarks : List MergedBookmarkRow
  tags : List TagRow
  tagMaps : List TagMapRow
  mmLoc : List MMEntry
  mmUM : List MMEntry
  mmBM : List MMEntry
  mmTag : List MMEntry
  mmTagMap : List MMEntry
deriving Repr

/-- create_merged_schema: clone the schema objects of source 1 except
the LastModified table, recreate LastModified empty, and add
PlaylistItemMediaMap when absent; no rows are copied, so every entity
table starts empty. -/
def createMergedSchema (src : SourceDb) : MergedDb :=
  { tables :=
      (if ((src.tables.filter (fun t => !(t == "LastModified"))) ++
            ["LastModified"]).contains "PlaylistItemMediaMap" then
        (src.tables.filter (fun t => !(t == "LastModified"))) ++ ["LastModified"]
      else
        ((src.tables.filter (fun t => !(t == "LastModified"))) ++ ["LastModified"]) ++
          ["PlaylistItemMediaMap"]),
    locations := [], media := [], userMarks := [], lastModified := [], notes := [],
    bookmarks := [], tags := [], tagMaps := [], mmLoc := [], mmUM := [], mmBM := [],
    mmTag := [], mmTagMap := [] }

/-- verify_schema of merge_data: both sources must contain the tables
Bookmark, Location, UserMark and Note. -/
def verifySchema (db : SourceDb) : Bool :=
  ["Bookmark", "Location", "UserMark", "Note"].all (fun t => db.tables.contains t)

/-- read_notes_and_highlights (server.py 123-146): SELECT the Note rows
(LEFT JOIN UserMark) and the UserMark rows of one source database.  With
the Note or the UserMark table absent the SELECT raises
sqlite3.OperationalError; none models the raised exception. -/
def readNotesAndHighlights (src : SourceDb) :
    Option (List SrcNoteRow × List SrcUserMarkRow) :=
  if (src.tables.contains "Note" && src.tables.contains "UserMark") = true then
    some (src.notes, src.userMarks)
  else none

/-- Python {guid: new_id} dict built from SELECT UserMarkId, UserMarkGuid
FROM UserMark at server.py lines 3017-3024. -/
def buildUserMarkGuidMap (tbl : List UserMarkRow) : List (Option String × Nat) :=
  tbl.foldl (fun acc r => dset acc r.guid r.userMarkId) []

/-- Result of the abstracted merge_playlists stage. -/
structure PlaylistResult where
  db : MergedDb
  maxPlaylistId : Nat
  itemTotal : Nat
  maxMediaId : Nat
  orphanedDeleted : Nat
  itemIdMap : IdMap

/-- Stages of merge_data that no claim depends on, modeled as an
environment of state transformers: merge_blockrange_from_two_sources
(whose False return aborts the run with HTTP 500), the residual block
(merge_other_tables, merge_platform_metadata, orphan cleanup, REINDEX),
PRAGMA quick_check and PRAGMA foreign_key_check, the merge_playlists
family, and the tail block (merge_inputfields,
update_location_references, cleanup_playlist_item_location_map). -/
structure MergeEnv where
  blockRange : MergedDb → Option MergedDb
  residual : MergedDb → MergedDb
  quickCheck : MergedDb → String
  fkCheck : MergedDb → List String
  playlist : MergedDb → PlaylistResult
  post : MergedDb → MergedDb

/-- Outcome of one /merge request. -/
structure MergeReport where
  mergedFile : String
  playlists : Nat
  playlistItems : Nat
  mediaFiles : Nat
  cleanedItems : Nat
  integrityCheck : String
deriving Repr, DecidableEq

/-- uncaughtError: an exception that no except clause of merge_data
catches (the try at server.py 2754 has only a finally), surfaced by Flask
as a generic HTTP 500. -/
inductive MergeOutcome where
  | uncaughtError : MergeOutcome
  | schemaError : MergeOutcome
  | blockRangeError : MergeOutcome
  | success : MergeReport → MergeOutcome
deriving Repr, DecidableEq

/-- Everything merge_data runs before its schema verification: schema
bootstrap from source 1, Location merge, IndependentMedia merge,
UserMark merge, and the LastModified rewrite. -/
structure PreVerifyResult where
  db : MergedDb
  locMap : IdMap

def preVerifyStages (src1 src2 : SourceDb) (src1Path src2Path : String)
    (mergeDate : String) (freshUM : Nat → String) : PreVerifyResult :=
  let db0 := createMergedSchema src1
  let locRes := mergeLocations db0.locations db0.mmLoc
    ((src1.locations.map (fun p => ⟨src1Path, p.1, p.2⟩)) ++
     (src2.locations.map (fun p => ⟨src2Path, p.1, p.2⟩)))
  let mediaRes := mergeIndependentMedia db0.media src1Path src2Path src1.media src2.media
  let umRes := mergeUserMarks db0.userMarks db0.mmUM locRes.2 src1Path src1.userMarks
    src2Path src2.userMarks freshUM
  { db := { db0 with
      locations := locRes.1.table, mmLoc := locRes.1.mapTable,
      media := mediaRes.1, userMarks := umRes.table, mmUM := umRes.mapTable,
      lastModified := [mergeDate] },
    locMap := locRes.2 }

/-- merge_data (the /merge endpoint).  read_notes_and_highlights runs on
both sources first (2774-2775); the enclosing try (2754) has no except
clause, so a failure of those reads is an uncaught exception: the request
dies with a generic 500 before os.remove and create_merged_schema
(2804-2809) run, and this run produces no merged database at all (second
component none).  Otherwise any previously produced merged database is
deleted and rebuilt from scratch (the prevMerged argument is discarded,
as os.remove discards the file).  merge_location_from_sources (2822)
reads the Location table of both sources before writing anything
(1477-1488) and merge_data's handler re-raises its failure (2826-2830),
so a source missing Location also dies uncaught, leaving behind the
schema-only merged database.  (IndependentMedia's table presence is not
tracked: SourceDb carries its rows directly.)  The schema verification
runs only after the Location, IndependentMedia and UserMark mergers and
the LastModified rewrite, and the final quick_check result is only
reported.  Returns the outcome and the final state of the working merged
database this run created (also left behind on error paths).

mergeDataBody is everything merge_data runs once both sources survived
the source-read gates: the pre-verification stages, the schema check,
and on success the Bookmark, BlockRange, Note, Tag, selected-tags,
residual, Playlist and cleanup stages. -/
def mergeDataBody (src1 src2 : SourceDb)
    (src1Path src2Path : String) (noteChoices : List NoteChoice)
    (bmChoices : List BookmarkChoice) (mergeDate : String)
    (freshUM freshNote : Nat → String) (env : MergeEnv) :
    MergeOutcome × Option MergedDb :=
  let pre := preVerifyStages src1 src2 src1Path src2Path mergeDate freshUM
  if (verifySchema src1 && verifySchema src2) = true then
    let bmRes := mergeBookmarks pre.db.bookmarks pre.db.mmBM pre.locMap
      (pre.db.locations.map (fun r => r.locationId)) src1Path src2Path
      src1.bookmarks src2.bookmarks bmChoices
    let db5 := { pre.db with bookmarks := bmRes.table, mmBM := bmRes.mapTable }
    match env.blockRange db5 with
    | none => (MergeOutcome.blockRangeError, some db5)
    | some db6 =>
        let noteRes := mergeNotes db6.notes pre.locMap
          (buildUserMarkGuidMap db6.userMarks) src1Path src2Path src1.notes src2.notes
          noteChoices freshNote
        let db7 := { db6 with notes := noteRes.table }
        let tagRes1 := mergeTagsAndTagmap db7.tags db7.tagMaps db7.mmTag db7.mmTagMap
          noteRes.mapping pre.locMap [] src1Path src2Path src1.tags src2.tags
          src1.tagMaps src2.tagMaps
        let db8 := { db7 with
          tags := tagRes1.1.tags, mmTag := tagRes1.1.mapTable,
          tagMaps := tagRes1.2.tagMaps, mmTagMap := tagRes1.2.mapTable }
        let db9 := { db8 with
          tagMaps := applySelectedTags noteRes.mapping tagRes1.1.tagIdMap src1Path
            src2Path noteChoices db8.tagMaps }
        let db10 := env.residual db9
        let pl := env.playlist db10
        let tagRes2 := mergeTagsAndTagmap pl.db.tags pl.db.tagMaps pl.db.mmTag
          pl.db.mmTagMap noteRes.mapping pre.locMap pl.itemIdMap src1Path src2Path
          src1.tags src2.tags src1.tagMaps src2.tagMaps
        let db12 := { pl.db with
          tags := tagRes2.1.tags, mmTag := tagRes2.1.mapTable,
          tagMaps := tagRes2.2.tagMaps, mmTagMap := tagRes2.2.mapTable }
        let db13 := env.post db12
        let db14 := { db13 with
          mmLoc := [], mmUM := [], mmBM := [], mmTag := [], mmTagMap := [],
          tables := db13.tables.filter (fun t => !(t == "PlaylistItemMediaMap")) }
        (MergeOutcome.success ⟨"debug_cleaned_before_copy.db", pl.maxPlaylistId,
          pl.itemTotal, pl.maxMediaId, pl.orphanedDeleted, env.quickCheck pl.db⟩,
         some db14)
  else
    (MergeOutcome.schemaError, some pre.db)

/-- The /merge endpoint proper, composing the source-read gates with the
body above. -/
def mergeData (_prevMerged : Option MergedDb) (src1 src2 : SourceDb)
    (src1Path src2Path : String) (noteChoices : List NoteChoice)
    (bmChoices : List BookmarkChoice) (mergeDate : String)
    (freshUM freshNote : Nat → String) (env : MergeEnv) :
    MergeOutcome × Option MergedDb :=
  match readNotesAndHighlights src1, readNotesAndHighlights src2 with
  | some _, some _ =>
    if (src1.tables.contains "Location" && src2.tables.contains "Location") = true
    then mergeDataBody src1 src2 src1Path src2Path noteChoices bmChoices
      mergeDate freshUM freshNote env
    else (MergeOutcome.uncaughtError, some (createMergedSchema src1))
  | _, _ => (MergeOutcome.uncaughtError, none)

/- ===================== Claims C8, C9, C10 ================================ -/

/-- Conjunction elimination for Bool and. -/
theorem band_split (a b : Bool) (h : (a && b) = true) : a = true ∧ b = true := by
  simp only [Bool.and_eq_true] at h
  exact h

/-- verify_schema spelled out per required table. -/
theorem verifySchema_parts (db : SourceDb) (h : verifySchema db = true) :
    db.tables.contains "Bookmark" = true ∧ db.tables.contains "Location" = true ∧
    db.tables.contains "UserMark" = true ∧ db.tables.contains "Note" = true := by
  simp only [verifySchema, List.all_eq_true] at h
  exact ⟨h "Bookmark" (by simp), h "Location" (by simp), h "UserMark" (by simp),
    h "Note" (by simp)⟩

/-- A source passing verify_schema also passes the pre-pipeline
read_notes_and_highlights reads. -/
theorem readNotesAndHighlights_of_verify (db : SourceDb) (h : verifySchema db = true) :
    readNotesAndHighlights db = some (db.notes, db.userMarks) := by
  obtain ⟨hB, hL, hU, hN⟩ := verifySchema_parts db h
  unfold readNotesAndHighlights
  rw [hN, hU]
  simp

/-- A source whose read_notes_and_highlights reads succeed contains the
Note and UserMark tables. -/
theorem readNotesAndHighlights_tables (db : SourceDb)
    (h : (readNotesAndHighlights db).isSome = true) :
    db.tables.contains "Note" = true ∧ db.tables.contains "UserMark" = true := by
  by_cases hc : (db.tables.contains "Note" && db.tables.contains "UserMark") = true
  · exact band_split _ _ hc
  · unfold readNotesAndHighlights at h
    rw [if_neg hc] at h
    exact absurd h (by simp)

/-- With Location, UserMark and Note present, verify_schema reduces to
the presence of the Bookmark table. -/
theorem verifySchema_eq_bookmark (db : SourceDb)
    (hN : db.tables.contains "Note" = true) (hU : db.tables.contains "UserMark" = true)
    (hL : db.tables.contains "Location" = true) :
    verifySchema db = db.tables.contains "Bookmark" := by
  unfold verifySchema
  simp only [List.all_cons, List.all_nil, hN, hU, hL, Bool.and_true]

/-- A trivial environment for concrete runs: BlockRange always succeeds,
the abstracted stages change nothing, quick_check returns qc. -/
def idEnv (qc : String) : MergeEnv :=
  { blockRange := fun db => some db,
    residual := fun db => db,
    quickCheck := fun _ => qc,
    fkCheck := fun _ => [],
    playlist := fun db => ⟨db, 0, 0, 0, 0, []⟩,
    post := fun db => db }

/-- A complete small source database. -/
def srcA : SourceDb :=
  { tables := ["Bookmark", "Location", "UserMark", "Note"],
    locations := [(1, c7data)], media := [], userMarks := [], notes := [],
    bookmarks := [], tags := [], tagMaps := [] }

/-- The same content under a second path, as source 2. -/
def srcB : SourceDb :=
  { tables := ["Bookmark", "Location", "UserMark", "Note"],
    locations := [(2, c7data)], media := [], userMarks := [], notes := [],
    bookmarks := [], tags := [], tagMaps := [] }

/-- A source database missing the required Note table. -/
def srcBad : SourceDb :=
  { tables := ["Bookmark", "Location", "UserMark"],
    locations := [(2, c7data)], media := [], userMarks := [], notes := [],
    bookmarks := [], tags := [], tagMaps := [] }

/-- A source database missing only the required Bookmark table. -/
def srcNoBM : SourceDb :=
  { tables := ["Location", "UserMark", "Note"],
    locations := [(2, c7data)], media := [], userMarks := [], notes := [],
    bookmarks := [], tags := [], tagMaps := [] }

/-- C8 is false as stated, in both directions.  With source 2 missing
only the Bookmark table the run does abort with the
schema-incompatibility error, but only after the Location (and
IndependentMedia and UserMark) mergers already executed: the aborted
merged database contains the two Location rows they inserted and the
rewritten LastModified, so the check is not a pre-flight check.  And
with source 2 missing the Note table the run never reaches the check at
all: the pre-pipeline read_notes_and_highlights read fails, the
exception is uncaught, and the run dies with a generic 500 before any
merged database is even created. -/
theorem schema_check_counterexample :
    (mergeData none srcA srcNoBM "a" "b" [] [] "2024-01-01T00:00:00"
      (fun _ => "f") (fun _ => "g") (idEnv "ok")).1 = MergeOutcome.schemaError ∧
    (mergeData none srcA srcNoBM "a" "b" [] [] "2024-01-01T00:00:00"
      (fun _ => "f") (fun _ => "g") (idEnv "ok")).2.map
      (fun db => db.locations.length) = some 2 ∧
    (mergeData none srcA srcNoBM "a" "b" [] [] "2024-01-01T00:00:00"
      (fun _ => "f") (fun _ => "g") (idEnv "ok")).2.map
      (fun db => db.lastModified) = some ["2024-01-01T00:00:00"] ∧
    (mergeData none srcA srcBad "a" "b" [] [] "2024-01-01T00:00:00"
      (fun _ => "f") (fun _ => "g") (idEnv "ok")).1 = MergeOutcome.uncaughtError ∧
    (mergeData none srcA srcBad "a" "b" [] [] "2024-01-01T00:00:00"
      (fun _ => "f") (fun _ => "g") (idEnv "ok")).2.isNone = true := by
  decide

/-- C8 amended: a missing Note or UserMark table never reaches the
required-tables check (the pre-pipeline read_notes_and_highlights reads
die uncaught first, before the merged database is created), and a
missing Location table dies inside the Location merger; so the check can
only fire for a missing Bookmark table (last conjunct), and when it does
fire it aborts the run with the schema-incompatibility error before the
Bookmark, BlockRange, Note, Tag and Playlist stages run, but only after
the Location, IndependentMedia and UserMark mergers and the LastModified
rewrite have already modified the merged database. -/
theorem schema_check_amended (prev : Option MergedDb) (src1 src2 : SourceDb)
    (p1 p2 : String) (nc : List NoteChoice) (bc : List BookmarkChoice) (d : String)
    (fUM fN : Nat → String) (env : MergeEnv)
    (hr1 : (readNotesAndHighlights src1).isSome = true)
    (hr2 : (readNotesAndHighlights src2).isSome = true)
    (hl : (src1.tables.contains "Location" && src2.tables.contains "Location") = true)
    (h : (verifySchema src1 && verifySchema src2) = false) :
    mergeData prev src1 src2 p1 p2 nc bc d fUM fN env =
      (MergeOutcome.schemaError, some (preVerifyStages src1 src2 p1 p2 d fUM).db) ∧
    (preVerifyStages src1 src2 p1 p2 d fUM).db.bookmarks = [] ∧
    (preVerifyStages src1 src2 p1 p2 d fUM).db.notes = [] ∧
    (preVerifyStages src1 src2 p1 p2 d fUM).db.tagMaps = [] ∧
    (preVerifyStages src1 src2 p1 p2 d fUM).db.locations =
      (mergeLocations (createMergedSchema src1).locations (createMergedSchema src1).mmLoc
        ((src1.locations.map (fun p => ⟨p1, p.1, p.2⟩)) ++
         (src2.locations.map (fun p => ⟨p2, p.1, p.2⟩)))).1.table ∧
    (preVerifyStages src1 src2 p1 p2 d fUM).db.lastModified = [d] ∧
    (src1.tables.contains "Bookmark" && src2.tables.contains "Bookmark") = false := by
  obtain ⟨hN1, hU1⟩ := readNotesAndHighlights_tables src1 hr1
  obtain ⟨hN2, hU2⟩ := readNotesAndHighlights_tables src2 hr2
  obtain ⟨hL1, hL2⟩ := band_split _ _ hl
  have hb : (src1.tables.contains "Bookmark" && src2.tables.contains "Bookmark")
      = false := by
    rw [verifySchema_eq_bookmark src1 hN1 hU1 hL1,
      verifySchema_eq_bookmark src2 hN2 hU2 hL2] at h
    exact h
  obtain ⟨x1, he1⟩ := Option.isSome_iff_exists.mp hr1
  obtain ⟨x2, he2⟩ := Option.isSome_iff_exists.mp hr2
  refine ⟨?_, rfl, rfl, rfl, rfl, rfl, hb⟩
  unfold mergeData
  rw [he1, he2]
  simp only [hl, eq_self_iff_true, if_true]
  unfold mergeDataBody
  rw [h]
  simp

/-- Witness for schema_check_amended at a concrete input. -/
theorem schema_check_amended_witness :
    mergeData none srcB srcNoBM "a" "b" [] [] "2024-02-02T00:00:00"
      (fun _ => "f") (fun _ => "g") (idEnv "ok") =
      (MergeOutcome.schemaError,
        some (preVerifyStages srcB srcNoBM "a" "b" "2024-02-02T00:00:00"
          (fun _ => "f")).db) :=
  (schema_check_amended none srcB srcNoBM "a" "b" [] [] "2024-02-02T00:00:00"
    (fun _ => "f") (fun _ => "g") (idEnv "ok") (by decide) (by decide) (by decide)
    (by decide)).1

/-- C9 is false as stated: with the structural consistency check
reporting a corruption message, the run still completes successfully and
hands the output file to the caller, merely reporting the message in the
integrity_check field of the response. -/
theorem integrity_check_counterexample :
    (mergeData none srcA srcB "a" "b" [] [] "2024-01-01T00:00:00"
      (fun _ => "f") (fun _ => "g") (idEnv "database disk image is malformed")).1 =
      MergeOutcome.success ⟨"debug_cleaned_before_copy.db", 0, 0, 0, 0,
        "database disk image is malformed"⟩ := by
  decide

/-- C9 amended: when the sources pass the schema check and the
BlockRange stage succeeds, the run always returns success and hands the
output file, whatever string the structural consistency check reports
(the result is only logged and echoed in the report), and the
foreign-key check has no influence on the run at all. -/
theorem integrity_logged_amended (prev : Option MergedDb) (src1 src2 : SourceDb)
    (p1 p2 : String) (nc : List NoteChoice) (bc : List BookmarkChoice) (d : String)
    (fUM fN : Nat → String) (env : MergeEnv) (r : String)
    (h1 : (verifySchema src1 && verifySchema src2) = true)
    (h2 : ∀ db, (env.blockRange db).isSome = true)
    (hq : env.quickCheck = fun _ => r) :
    (∃ rep : MergeReport, (mergeData prev src1 src2 p1 p2 nc bc d fUM fN env).1 =
        MergeOutcome.success rep ∧ rep.integrityCheck = r ∧
        rep.mergedFile = "debug_cleaned_before_copy.db") ∧
    (∀ g, mergeData prev src1 src2 p1 p2 nc bc d fUM fN
        { env with fkCheck := g } =
      mergeData prev src1 src2 p1 p2 nc bc d fUM fN env) := by
  obtain ⟨hv1, hv2⟩ := band_split _ _ h1
  have hl1 := (verifySchema_parts src1 hv1).2.1
  have hl2 := (verifySchema_parts src2 hv2).2.1
  constructor
  · unfold mergeData
    rw [readNotesAndHighlights_of_verify src1 hv1,
      readNotesAndHighlights_of_verify src2 hv2]
    simp only [hl1, hl2, Bool.and_self, eq_self_iff_true, if_true]
    unfold mergeDataBody
    rw [h1, hq]
    simp only [eq_self_iff_true, if_true]
    rcases ho : env.blockRange _ with _ | db6
    · have h3 := h2 (let pre := preVerifyStages src1 src2 p1 p2 d fUM
        { pre.db with
          bookmarks := (mergeBookmarks pre.db.bookmarks pre.db.mmBM pre.locMap
            (pre.db.locations.map (fun r => r.locationId)) p1 p2
            src1.bookmarks src2.bookmarks bc).table,
          mmBM := (mergeBookmarks pre.db.bookmarks pre.db.mmBM pre.locMap
            (pre.db.locations.map (fun r => r.locationId)) p1 p2
            src1.bookmarks src2.bookmarks bc).mapTable })
      rw [ho] at h3
      exact absurd h3 (by simp)
    · exact ⟨_, rfl, rfl, rfl⟩
  · intro g
    rfl

/-- Witness for integrity_logged_amended at a concrete input. -/
theorem integrity_logged_amended_witness :
    (∃ rep : MergeReport, (mergeData none srcA srcB "a" "b" [] []
        "2024-01-01T00:00:00" (fun _ => "f") (fun _ => "g") (idEnv "not ok")).1 =
        MergeOutcome.success rep ∧ rep.integrityCheck = "not ok" ∧
        rep.mergedFile = "debug_cleaned_before_copy.db") ∧
    (∀ g, mergeData none srcA srcB "a" "b" [] [] "2024-01-01T00:00:00"
        (fun _ => "f") (fun _ => "g") { idEnv "not ok" with fkCheck := g } =
      mergeData none srcA srcB "a" "b" [] [] "2024-01-01T00:00:00"
        (fun _ => "f") (fun _ => "g") (idEnv "not ok")) :=
  integrity_logged_amended none srcA srcB "a" "b" [] [] "2024-01-01T00:00:00"
    (fun _ => "f") (fun _ => "g") (idEnv "not ok") "not ok"
    (by decide) (fun _ => rfl) rfl

/-- C10: the merge endpoint deletes any existing merged output and
rebuilds it from scratch, so the outcome does not depend on a previous
run output in any way, and the merge engine starts from a merged
database holding schema only: every entity table of the freshly created
merged database is empty, LastModified is rebuilt, and
PlaylistItemMediaMap is present. -/
theorem merge_fresh_start (m1 m2 : Option MergedDb) (src1 src0 : SourceDb)
    (p1 p2 : String) (nc : List NoteChoice) (bc : List BookmarkChoice) (d : String)
    (fUM fN : Nat → String) (env : MergeEnv) :
    mergeData m1 src1 src0 p1 p2 nc bc d fUM fN env =
      mergeData m2 src1 src0 p1 p2 nc bc d fUM fN env ∧
    (createMergedSchema src1).locations = [] ∧
    (createMergedSchema src1).media = [] ∧
    (createMergedSchema src1).userMarks = [] ∧
    (createMergedSchema src1).notes = [] ∧
    (createMergedSchema src1).bookmarks = [] ∧
    (createMergedSchema src1).tags = [] ∧
    (createMergedSchema src1).tagMaps = [] ∧
    (createMergedSchema src1).lastModified = [] ∧
    (createMergedSchema src1).tables.contains "PlaylistItemMediaMap" = true := by
  refine ⟨rfl, rfl, rfl, rfl, rfl, rfl, rfl, rfl, rfl, ?_⟩
  unfold createMergedSchema
  split
  · rename_i hcon
    exact hcon
  · simp

end JWLC
